import Mathlib

/-!
# QuiverDB wrapper: a shallow embedding of the C API layer

The development follows `lib/wrapper/src/quiverdb_wrapper.cpp` and
`lib/wrapper/include/quiverdb_wrapper.h`.

* `size_t` and `uint64_t` values are natural numbers (no arithmetic is done on
  them by the wrapper, only comparisons).
* A `float` is an element of a carrier type `F`; the wrapper only moves floats
  around (`memcpy`, field assignment), so the carrier is left abstract.
* A pointer to floats is the list of floats readable from it; a destination
  buffer is the list of its current contents, and the call returns the new
  contents.
* The wrapped core classes (`core/vector_store.h`, `core/hnsw_index.h`) are not
  part of the sources.  Every wrapper function therefore takes the core as a
  record of methods (`VectorStoreCore`, `HNSWIndexCore`); a method either
  returns or throws, and a non-const method also yields the object afterwards.
-/

namespace QuiverDB

/-! ## Types of the header -/

/-- Error codes, `quiverdb_wrapper.h` lines 12-21. -/
inductive QuiverDBError
  | QUIVERDB_OK
  | QUIVERDB_ERROR
  | QUIVERDB_INVALID_ARGUMENT
  | QUIVERDB_OUT_OF_MEMORY
  | QUIVERDB_FILE_ERROR
  | QUIVERDB_DUPLICATE_ID
  | QUIVERDB_ID_NOT_FOUND
  | QUIVERDB_INDEX_FULL
  deriving DecidableEq, Repr

open QuiverDBError

/-- Numeric value of an error code in the C enum. -/
def QuiverDBError.toInt : QuiverDBError → Int
  | QUIVERDB_OK => 0
  | QUIVERDB_ERROR => -1
  | QUIVERDB_INVALID_ARGUMENT => -2
  | QUIVERDB_OUT_OF_MEMORY => -3
  | QUIVERDB_FILE_ERROR => -4
  | QUIVERDB_DUPLICATE_ID => -5
  | QUIVERDB_ID_NOT_FOUND => -6
  | QUIVERDB_INDEX_FULL => -7

/-- The C enum `QuiverDBDistanceMetric`: callers can pass any integer through a
`static_cast` (the tests and the JNI layer do), so the selector is an integer. -/
abbrev QuiverDBDistanceMetric := Int

def QUIVERDB_DISTANCE_L2 : QuiverDBDistanceMetric := 0
def QUIVERDB_DISTANCE_COSINE : QuiverDBDistanceMetric := 1
def QUIVERDB_DISTANCE_DOT : QuiverDBDistanceMetric := 2

/-- The core's `enum class DistanceMetric`. -/
inductive DistanceMetric
  | L2
  | COSINE
  | DOT
  deriving DecidableEq, Repr

/-- The core's `enum class HNSWDistanceMetric`. -/
inductive HNSWDistanceMetric
  | L2
  | COSINE
  | DOT
  deriving DecidableEq, Repr

/-- The struct `QuiverDBSearchResult`; the core's search results carry the same
two fields. -/
structure QuiverDBSearchResult (F : Type) where
  id : Nat
  distance : F
  deriving DecidableEq, Repr

/-! ## C++ exceptions -/

/-- Classes of exceptions the wrapper's `catch` clauses tell apart. -/
inductive ExnClass
  /-- Class `std::invalid_argument`. -/
  | invalid_argument
  /-- Class `std::ios_base::failure`, which is a `std::runtime_error`. -/
  | ios_failure
  /-- Any other `std::runtime_error`. -/
  | runtime_error
  /-- Class `std::bad_alloc`. -/
  | bad_alloc
  /-- Whatever else can be thrown. -/
  | other
  deriving DecidableEq, Repr

/-- A thrown exception: its class and its `what()` message. -/
structure Thrown where
  cls : ExnClass
  what : String
  deriving DecidableEq, Repr

/-- Does `catch (const std::invalid_argument&)` match? -/
def Thrown.is_invalid_argument (e : Thrown) : Bool := e.cls == ExnClass.invalid_argument

/-- Does `catch (const std::bad_alloc&)` match? -/
def Thrown.is_bad_alloc (e : Thrown) : Bool := e.cls == ExnClass.bad_alloc

/-- Does `catch (const std::ios_base::failure&)` match? -/
def Thrown.is_ios_failure (e : Thrown) : Bool := e.cls == ExnClass.ios_failure

/-- Does `catch (const std::runtime_error&)` match? -/
def Thrown.is_runtime_error (e : Thrown) : Bool :=
  e.cls == ExnClass.runtime_error || e.cls == ExnClass.ios_failure

/-- Substring test on character lists. -/
def strstr_chars : List Char → List Char → Bool
  | [], needle => needle.isEmpty
  | c :: cs, needle => needle.isPrefixOf (c :: cs) || strstr_chars cs needle

/-- The test `std::strstr(haystack, needle) != nullptr`. -/
def strstr (haystack needle : String) : Bool := strstr_chars haystack.toList needle.toList

/-- How a call of a non-const core method ends: the object afterwards, and the
value returned or the exception thrown. -/
structure CoreCall (S α : Type) where
  after : S
  result : Except Thrown α

/-! ## The core, as the wrapper sees it -/

/-- The methods of `quiverdb::VectorStore` the wrapper calls.  `S` is the state
of a store object. -/
structure VectorStoreCore (S F : Type) where
  create : Nat → DistanceMetric → Except Thrown S
  add : S → Nat → List F → CoreCall S Unit
  remove : S → Nat → CoreCall S Bool
  dimension : S → Except Thrown Nat
  /-- Returns a pointer to the stored vector, null (`none`) when there is none. -/
  get : S → Nat → Except Thrown (Option (List F))
  update : S → Nat → List F → CoreCall S Bool
  search : S → List F → Nat → Except Thrown (List (QuiverDBSearchResult F))
  size : S → Except Thrown Nat
  metric : S → Except Thrown DistanceMetric
  contains : S → Nat → Except Thrown Bool
  reserve : S → Nat → CoreCall S Unit
  clear : S → CoreCall S Unit

/-- The methods of `quiverdb::HNSWIndex` the wrapper calls.  `I` is the state of
an index object, `FS` the state of the file system. -/
structure HNSWIndexCore (I F FS : Type) where
  create : Nat → HNSWDistanceMetric → Nat → Except Thrown I
  create_with_params : Nat → HNSWDistanceMetric → Nat → Nat → Nat → Nat → Except Thrown I
  add : I → Nat → List F → CoreCall I Unit
  search : I → List F → Nat → Except Thrown (List (QuiverDBSearchResult F))
  set_ef_search : I → Nat → CoreCall I Unit
  get_ef_search : I → Except Thrown Nat
  size : I → Except Thrown Nat
  dimension : I → Except Thrown Nat
  capacity : I → Except Thrown Nat
  contains : I → Nat → Except Thrown Bool
  get_vector : I → Nat → Except Thrown (List F)
  save : I → String → FS → CoreCall FS Unit
  load : String → FS → Except Thrown I

/-- What a wrapper call leaves behind: the error code, the object behind the
handle, and the content of the destination or out-parameter. -/
structure Ret (S O : Type) where
  error : QuiverDBError
  store : S
  out : O

/-! ## `quiverdb_wrapper.cpp`: helpers -/

def convert_metric (metric : QuiverDBDistanceMetric) : DistanceMetric :=
  if metric = QUIVERDB_DISTANCE_L2 then DistanceMetric.L2
  else if metric = QUIVERDB_DISTANCE_COSINE then DistanceMetric.COSINE
  else if metric = QUIVERDB_DISTANCE_DOT then DistanceMetric.DOT
  else DistanceMetric.L2

def convert_metric_back : DistanceMetric → QuiverDBDistanceMetric
  | DistanceMetric.L2 => QUIVERDB_DISTANCE_L2
  | DistanceMetric.COSINE => QUIVERDB_DISTANCE_COSINE
  | DistanceMetric.DOT => QUIVERDB_DISTANCE_DOT

def convert_hnsw_metric (metric : QuiverDBDistanceMetric) : HNSWDistanceMetric :=
  if metric = QUIVERDB_DISTANCE_L2 then HNSWDistanceMetric.L2
  else if metric = QUIVERDB_DISTANCE_COSINE then HNSWDistanceMetric.COSINE
  else if metric = QUIVERDB_DISTANCE_DOT then HNSWDistanceMetric.DOT
  else HNSWDistanceMetric.L2

/-- The call `std::memcpy(dst, src, n * sizeof(float))` on float buffers. -/
def memcpy {F : Type} (dst src : List F) (n : Nat) : List F :=
  src.take n ++ dst.drop n

/-- The loop `for (i = 0; i < search_results.size(); ++i) results[i] = search_results[i]`
of the two search functions, started at index `i` with the core results still
to be copied. -/
def copy_results {F : Type} :
    List (QuiverDBSearchResult F) → Nat → List (QuiverDBSearchResult F) →
      List (QuiverDBSearchResult F)
  | [], _, results => results
  | r :: rest, i, results =>
    copy_results rest (i + 1) (results.set i { id := r.id, distance := r.distance })

/-- The handlers `invalid_argument`, `bad_alloc`, `...` shared by create, add and search. -/
def catch_arg_alloc (e : Thrown) : QuiverDBError :=
  if e.is_invalid_argument then QUIVERDB_INVALID_ARGUMENT
  else if e.is_bad_alloc then QUIVERDB_OUT_OF_MEMORY
  else QUIVERDB_ERROR

/-! ## `quiverdb_wrapper.cpp`: VectorStore functions

`store` is the object behind the handle.  For `create` the argument `store` is
the previous content of the out-parameter `*store` (`none`: no valid handle). -/

section VectorStoreWrapper

variable {S F : Type}

def quiverdb_vector_store_create (core : VectorStoreCore S F) (dimension : Nat)
    (metric : QuiverDBDistanceMetric) (store : Option S) : QuiverDBError × Option S :=
  match core.create dimension (convert_metric metric) with
  | .ok vector_store => (QUIVERDB_OK, some vector_store)
  | .error e => (catch_arg_alloc e, store)

def quiverdb_vector_store_add (core : VectorStoreCore S F) (store : S) (id : Nat)
    (vector : List F) : Ret S Unit :=
  let call := core.add store id vector
  match call.result with
  | .ok _ => { error := QUIVERDB_OK, store := call.after, out := () }
  | .error e => { error := catch_arg_alloc e, store := call.after, out := () }

/-- The argument `removed` is the previous content of `*removed`. -/
def quiverdb_vector_store_remove (core : VectorStoreCore S F) (store : S) (id : Nat)
    (removed : Int) : Ret S Int :=
  let call := core.remove store id
  match call.result with
  | .ok result => { error := QUIVERDB_OK, store := call.after, out := if result then 1 else 0 }
  | .error _ => { error := QUIVERDB_ERROR, store := call.after, out := removed }

/-- The argument `vector` is the destination buffer; the second component of the
result is the buffer after the call. -/
def quiverdb_vector_store_get (core : VectorStoreCore S F) (store : S) (id : Nat)
    (vector : List F) (vector_size : Nat) : QuiverDBError × List F :=
  match core.dimension store with
  | .error _ => (QUIVERDB_ERROR, vector)
  | .ok dimension =>
    if vector_size < dimension then (QUIVERDB_INVALID_ARGUMENT, vector)
    else
      match core.get store id with
      | .error _ => (QUIVERDB_ERROR, vector)
      | .ok none => (QUIVERDB_ID_NOT_FOUND, vector)
      | .ok (some stored_vector) => (QUIVERDB_OK, memcpy vector stored_vector dimension)

def quiverdb_vector_store_update (core : VectorStoreCore S F) (store : S) (id : Nat)
    (vector : List F) : Ret S Unit :=
  let call := core.update store id vector
  match call.result with
  | .ok result =>
    if !result then { error := QUIVERDB_ID_NOT_FOUND, store := call.after, out := () }
    else { error := QUIVERDB_OK, store := call.after, out := () }
  | .error e =>
    if e.is_invalid_argument then
      { error := QUIVERDB_INVALID_ARGUMENT, store := call.after, out := () }
    else { error := QUIVERDB_ERROR, store := call.after, out := () }

/-- The argument `results` is the destination array; the second component of the
result is the array after the call. -/
def quiverdb_vector_store_search (core : VectorStoreCore S F) (store : S) (query : List F)
    (k : Nat) (results : List (QuiverDBSearchResult F)) (results_size : Nat) :
    QuiverDBError × List (QuiverDBSearchResult F) :=
  if results_size < k then (QUIVERDB_INVALID_ARGUMENT, results)
  else
    match core.search store query k with
    | .ok search_results => (QUIVERDB_OK, copy_results search_results 0 results)
    | .error e => (catch_arg_alloc e, results)

def quiverdb_vector_store_size (core : VectorStoreCore S F) (store : S) (size : Nat) :
    QuiverDBError × Nat :=
  match core.size store with
  | .ok n => (QUIVERDB_OK, n)
  | .error _ => (QUIVERDB_ERROR, size)

def quiverdb_vector_store_dimension (core : VectorStoreCore S F) (store : S)
    (dimension : Nat) : QuiverDBError × Nat :=
  match core.dimension store with
  | .ok n => (QUIVERDB_OK, n)
  | .error _ => (QUIVERDB_ERROR, dimension)

def quiverdb_vector_store_metric (core : VectorStoreCore S F) (store : S)
    (metric : QuiverDBDistanceMetric) : QuiverDBError × QuiverDBDistanceMetric :=
  match core.metric store with
  | .ok m => (QUIVERDB_OK, convert_metric_back m)
  | .error _ => (QUIVERDB_ERROR, metric)

def quiverdb_vector_store_contains (core : VectorStoreCore S F) (store : S) (id : Nat)
    (contains : Int) : QuiverDBError × Int :=
  match core.contains store id with
  | .ok result => (QUIVERDB_OK, if result then 1 else 0)
  | .error _ => (QUIVERDB_ERROR, contains)

def quiverdb_vector_store_reserve (core : VectorStoreCore S F) (store : S)
    (capacity : Nat) : Ret S Unit :=
  let call := core.reserve store capacity
  match call.result with
  | .ok _ => { error := QUIVERDB_OK, store := call.after, out := () }
  | .error e =>
    if e.is_bad_alloc then { error := QUIVERDB_OUT_OF_MEMORY, store := call.after, out := () }
    else { error := QUIVERDB_ERROR, store := call.after, out := () }

def quiverdb_vector_store_clear (core : VectorStoreCore S F) (store : S) : Ret S Unit :=
  let call := core.clear store
  match call.result with
  | .ok _ => { error := QUIVERDB_OK, store := call.after, out := () }
  | .error _ => { error := QUIVERDB_ERROR, store := call.after, out := () }

end VectorStoreWrapper

/-! ## `quiverdb_wrapper.cpp`: HNSWIndex functions -/

section HNSWIndexWrapper

variable {I F FS : Type}

def quiverdb_hnsw_index_create (core : HNSWIndexCore I F FS) (dimension : Nat)
    (metric : QuiverDBDistanceMetric) (max_elements : Nat) (index : Option I) :
    QuiverDBError × Option I :=
  match core.create dimension (convert_hnsw_metric metric) max_elements with
  | .ok hnsw_index => (QUIVERDB_OK, some hnsw_index)
  | .error e => (catch_arg_alloc e, index)

def quiverdb_hnsw_index_create_with_params (core : HNSWIndexCore I F FS) (dimension : Nat)
    (metric : QuiverDBDistanceMetric) (max_elements M ef_construction seed : Nat)
    (index : Option I) : QuiverDBError × Option I :=
  match core.create_with_params dimension (convert_hnsw_metric metric) max_elements M
      ef_construction seed with
  | .ok hnsw_index => (QUIVERDB_OK, some hnsw_index)
  | .error e => (catch_arg_alloc e, index)

/-- The handlers of `quiverdb_hnsw_index_add`, in their order. -/
def hnsw_add_catch (e : Thrown) : QuiverDBError :=
  if e.is_invalid_argument then QUIVERDB_INVALID_ARGUMENT
  else if e.is_runtime_error then
    if strstr e.what "exists" then QUIVERDB_DUPLICATE_ID
    else if strstr e.what "full" then QUIVERDB_INDEX_FULL
    else QUIVERDB_ERROR
  else if e.is_bad_alloc then QUIVERDB_OUT_OF_MEMORY
  else QUIVERDB_ERROR

def quiverdb_hnsw_index_add (core : HNSWIndexCore I F FS) (index : I) (id : Nat)
    (vector : List F) : Ret I Unit :=
  let call := core.add index id vector
  match call.result with
  | .ok _ => { error := QUIVERDB_OK, store := call.after, out := () }
  | .error e => { error := hnsw_add_catch e, store := call.after, out := () }

def quiverdb_hnsw_index_search (core : HNSWIndexCore I F FS) (index : I) (query : List F)
    (k : Nat) (results : List (QuiverDBSearchResult F)) (results_size : Nat) :
    QuiverDBError × List (QuiverDBSearchResult F) :=
  if results_size < k then (QUIVERDB_INVALID_ARGUMENT, results)
  else
    match core.search index query k with
    | .ok search_results => (QUIVERDB_OK, copy_results search_results 0 results)
    | .error e => (catch_arg_alloc e, results)

def quiverdb_hnsw_index_set_ef_search (core : HNSWIndexCore I F FS) (index : I)
    (ef_search : Nat) : Ret I Unit :=
  let call := core.set_ef_search index ef_search
  match call.result with
  | .ok _ => { error := QUIVERDB_OK, store := call.after, out := () }
  | .error e =>
    if e.is_invalid_argument then
      { error := QUIVERDB_INVALID_ARGUMENT, store := call.after, out := () }
    else { error := QUIVERDB_ERROR, store := call.after, out := () }

def quiverdb_hnsw_index_get_ef_search (core : HNSWIndexCore I F FS) (index : I)
    (ef_search : Nat) : QuiverDBError × Nat :=
  match core.get_ef_search index with
  | .ok n => (QUIVERDB_OK, n)
  | .error _ => (QUIVERDB_ERROR, ef_search)

def quiverdb_hnsw_index_size (core : HNSWIndexCore I F FS) (index : I) (size : Nat) :
    QuiverDBError × Nat :=
  match core.size index with
  | .ok n => (QUIVERDB_OK, n)
  | .error _ => (QUIVERDB_ERROR, size)

def quiverdb_hnsw_index_dimension (core : HNSWIndexCore I F FS) (index : I)
    (dimension : Nat) : QuiverDBError × Nat :=
  match core.dimension index with
  | .ok n => (QUIVERDB_OK, n)
  | .error _ => (QUIVERDB_ERROR, dimension)

def quiverdb_hnsw_index_capacity (core : HNSWIndexCore I F FS) (index : I)
    (capacity : Nat) : QuiverDBError × Nat :=
  match core.capacity index with
  | .ok n => (QUIVERDB_OK, n)
  | .error _ => (QUIVERDB_ERROR, capacity)

def quiverdb_hnsw_index_contains (core : HNSWIndexCore I F FS) (index : I) (id : Nat)
    (contains : Int) : QuiverDBError × Int :=
  match core.contains index id with
  | .ok result => (QUIVERDB_OK, if result then 1 else 0)
  | .error _ => (QUIVERDB_ERROR, contains)

/-- The handlers of `quiverdb_hnsw_index_get_vector`. -/
def hnsw_get_vector_catch (e : Thrown) : QuiverDBError :=
  if e.is_runtime_error then
    if strstr e.what "not found" then QUIVERDB_ID_NOT_FOUND else QUIVERDB_ERROR
  else QUIVERDB_ERROR

def quiverdb_hnsw_index_get_vector (core : HNSWIndexCore I F FS) (index : I) (id : Nat)
    (vector : List F) (vector_size : Nat) : QuiverDBError × List F :=
  match core.dimension index with
  | .error e => (hnsw_get_vector_catch e, vector)
  | .ok dimension =>
    if vector_size < dimension then (QUIVERDB_INVALID_ARGUMENT, vector)
    else
      match core.get_vector index id with
      | .error e => (hnsw_get_vector_catch e, vector)
      | .ok stored_vector => (QUIVERDB_OK, memcpy vector stored_vector dimension)

/-- The handlers of `quiverdb_hnsw_index_save`. -/
def hnsw_save_catch (e : Thrown) : QuiverDBError :=
  if e.is_ios_failure then QUIVERDB_FILE_ERROR
  else if e.is_bad_alloc then QUIVERDB_OUT_OF_MEMORY
  else QUIVERDB_ERROR

/-- The file system plays the part of the mutated object. -/
def quiverdb_hnsw_index_save (core : HNSWIndexCore I F FS) (index : I) (filename : String)
    (fs : FS) : Ret FS Unit :=
  let call := core.save index filename fs
  match call.result with
  | .ok _ => { error := QUIVERDB_OK, store := call.after, out := () }
  | .error e => { error := hnsw_save_catch e, store := call.after, out := () }

/-- The handlers of `quiverdb_hnsw_index_load`. -/
def hnsw_load_catch (e : Thrown) : QuiverDBError :=
  if e.is_ios_failure then QUIVERDB_FILE_ERROR
  else if e.is_invalid_argument then QUIVERDB_INVALID_ARGUMENT
  else if e.is_bad_alloc then QUIVERDB_OUT_OF_MEMORY
  else QUIVERDB_ERROR

/-- The argument `index` is the previous content of the out-parameter `*index`. -/
def quiverdb_hnsw_index_load (core : HNSWIndexCore I F FS) (filename : String) (fs : FS)
    (index : Option I) : QuiverDBError × Option I :=
  match core.load filename fs with
  | .ok hnsw_index => (QUIVERDB_OK, some hnsw_index)
  | .error e => (hnsw_load_catch e, index)

end HNSWIndexWrapper

/-! ## The core's flat store, modelled from the spec

`core/vector_store.h` is not part of the sources.  The model below follows the
spec, sections 3, 4.1 and 7.  Floats are elements of a linearly ordered field
`F`: scores are compared and added exactly, rounding and NaN are outside the
model. -/

/-- Modelled from the spec: the error kinds of section 7, which the missing core
reports. -/
inductive ErrorKind
  | InvalidArgument
  | OutOfMemory
  | FileError
  | DuplicateId
  | IdNotFound
  | IndexFull
  deriving DecidableEq, Repr

/-- Modelled from the spec: the Flat Vector Store of section 3, missing with
`core/vector_store.h`: a dimension and a metric fixed at creation, and a mapping
from id to vector, kept as a list of records in insertion order. -/
structure VectorStore (F : Type) where
  dimension : Nat
  metric : DistanceMetric
  entries : List (Nat × List F)

section SpecVectorStore

variable {F : Type}

/-- Modelled from the spec: `create(dimension, metric)` of the missing core, an
empty store. -/
def VectorStore.create (dimension : Nat) (metric : DistanceMetric) : VectorStore F :=
  { dimension := dimension, metric := metric, entries := [] }

/-- Modelled from the spec: `contains(id)` of the missing core. -/
def VectorStore.contains (s : VectorStore F) (id : Nat) : Bool :=
  s.entries.any fun e => e.1 == id

/-- Modelled from the spec: `size()` of the missing core, the mapping's cardinality. -/
def VectorStore.size (s : VectorStore F) : Nat := s.entries.length

/-- Modelled from the spec: `get(id) -> Option<vector>` of the missing core. -/
def VectorStore.get (s : VectorStore F) (id : Nat) : Option (List F) :=
  (s.entries.find? fun e => e.1 == id).map Prod.snd

/-- Modelled from the spec: `add` of the missing core (section 4.1): fails with
`InvalidArgument` if the vector's length differs from `dimension`, with
`DuplicateId` if the id is present; otherwise inserts. -/
def VectorStore.add (s : VectorStore F) (id : Nat) (vector : List F) :
    Except ErrorKind (VectorStore F) :=
  if vector.length ≠ s.dimension then .error ErrorKind.InvalidArgument
  else if s.contains id then .error ErrorKind.DuplicateId
  else .ok { s with entries := s.entries ++ [(id, vector)] }

/-- Modelled from the spec: `remove` of the missing core (section 4.1): an absent
id gives `false` and the same store, a present id is deleted and gives `true`. -/
def VectorStore.remove (s : VectorStore F) (id : Nat) : VectorStore F × Bool :=
  if s.contains id then ({ s with entries := s.entries.filter fun e => !(e.1 == id) }, true)
  else (s, false)

/-- Modelled from the spec: `update` of the missing core (section 4.1): an absent
id is reported as not found (`false`); the replacement must have length
`dimension`. -/
def VectorStore.update (s : VectorStore F) (id : Nat) (vector : List F) :
    Except ErrorKind (VectorStore F × Bool) :=
  if !s.contains id then .ok (s, false)
  else if vector.length ≠ s.dimension then .error ErrorKind.InvalidArgument
  else .ok ({ s with entries := s.entries.map fun e => if e.1 == id then (id, vector) else e },
    true)

/-- Modelled from the spec: `clear()` of the missing core. -/
def VectorStore.clear (s : VectorStore F) : VectorStore F := { s with entries := [] }

/-- Modelled from the spec: `reserve(capacity)` of the missing core, a hint that
changes nothing observable. -/
def VectorStore.reserve (s : VectorStore F) (_capacity : Nat) : VectorStore F := s

/-- Type of the core's `search(query, k)` on the modelled store. -/
abbrev SearchFn (F : Type) : Type :=
  VectorStore F → List F → Nat → Except ErrorKind (List (QuiverDBSearchResult F))

/-- Modelled from the spec: the missing class `quiverdb::VectorStore` as the
wrapper calls it, for any carrier of floats; the search is given separately
since it alone computes with floats.  A failure of kind `k` is thrown as
`raise k` and leaves the store as it was (section 7: no partial mutation on
failure). -/
def specVectorStoreCoreWith (raise : ErrorKind → Thrown) (search : SearchFn F) :
    VectorStoreCore (VectorStore F) F where
  create := fun dimension metric => .ok (VectorStore.create dimension metric)
  add := fun s id vector =>
    match s.add id vector with
    | .ok s1 => { after := s1, result := .ok () }
    | .error k => { after := s, result := .error (raise k) }
  remove := fun s id => { after := (s.remove id).1, result := .ok (s.remove id).2 }
  dimension := fun s => .ok s.dimension
  get := fun s id => .ok (s.get id)
  update := fun s id vector =>
    match s.update id vector with
    | .ok r => { after := r.1, result := .ok r.2 }
    | .error k => { after := s, result := .error (raise k) }
  search := fun s query k =>
    match search s query k with
    | .ok r => .ok r
    | .error e => .error (raise e)
  size := fun s => .ok s.size
  metric := fun s => .ok s.metric
  contains := fun s id => .ok (s.contains id)
  reserve := fun s capacity => { after := s.reserve capacity, result := .ok () }
  clear := fun s => { after := s.clear, result := .ok () }

variable [LinearOrderedField F]

/-- Modelled from the spec: the raw dot product used by the metrics of section 3. -/
def dot_product (a b : List F) : F := (List.zipWith (fun x y => x * y) a b).sum

/-- Modelled from the spec: the L2 score, the sum of squared per-component
differences (no square root). -/
def l2_score (a b : List F) : F := (List.zipWith (fun x y => (x - y) * (x - y)) a b).sum

/-- Modelled from the spec: cosine similarity, the normalized dot product, `0`
when either norm is zero.  The square root is a parameter. -/
def cosine_similarity (sqrt : F → F) (a b : List F) : F :=
  let na := sqrt (dot_product a a)
  let nb := sqrt (dot_product b b)
  if na = 0 ∨ nb = 0 then 0 else dot_product a b / (na * nb)

/-- Modelled from the spec: `score(a, b)` of section 3; smaller means more similar. -/
def score (sqrt : F → F) : DistanceMetric → List F → List F → F
  | DistanceMetric.L2, a, b => l2_score a b
  | DistanceMetric.COSINE, a, b => 1 - cosine_similarity sqrt a b
  | DistanceMetric.DOT, a, b => - dot_product a b

/-- Modelled from the spec: the order of search results, ascending by score with
ties broken by ascending id. -/
def result_le (a b : QuiverDBSearchResult F) : Prop :=
  a.distance < b.distance ∨ (a.distance = b.distance ∧ a.id ≤ b.id)

instance result_le_decidable : DecidableRel (result_le : QuiverDBSearchResult F → _ → Prop) :=
  fun a b => by unfold result_le; exact inferInstance

/-- Modelled from the spec: every stored record with its score against the query. -/
def VectorStore.scored (sqrt : F → F) (s : VectorStore F) (query : List F) :
    List (QuiverDBSearchResult F) :=
  s.entries.map fun e => { id := e.1, distance := score sqrt s.metric query e.2 }

/-- Modelled from the spec: `search(query, k)` of the missing core (section
4.1): scores every stored vector, sorts ascending by score and then id, keeps
the first `k`; a query of the wrong length is an `InvalidArgument`. -/
def VectorStore.search (sqrt : F → F) (s : VectorStore F) (query : List F) (k : Nat) :
    Except ErrorKind (List (QuiverDBSearchResult F)) :=
  if query.length ≠ s.dimension then .error ErrorKind.InvalidArgument
  else .ok (((s.scored sqrt query).insertionSort result_le).take k)

/-- The C++ exceptions the wrapper's handlers are written for: the class they
catch for each kind and, where they inspect the message (`"exists"`, `"full"`,
`"not found"`), a message that matches. -/
def raise_std : ErrorKind → Thrown
  | ErrorKind.InvalidArgument => { cls := ExnClass.invalid_argument, what := "invalid argument" }
  | ErrorKind.OutOfMemory => { cls := ExnClass.bad_alloc, what := "std::bad_alloc" }
  | ErrorKind.FileError => { cls := ExnClass.ios_failure, what := "file error" }
  | ErrorKind.DuplicateId => { cls := ExnClass.runtime_error, what := "ID already exists" }
  | ErrorKind.IdNotFound => { cls := ExnClass.runtime_error, what := "ID not found" }
  | ErrorKind.IndexFull => { cls := ExnClass.runtime_error, what := "index is full" }

/-- Modelled from the spec: the missing class `quiverdb::VectorStore` with the
search of section 4.1, over a linearly ordered field of floats. -/
def specVectorStoreCore (raise : ErrorKind → Thrown) (sqrt : F → F) :
    VectorStoreCore (VectorStore F) F :=
  specVectorStoreCoreWith raise (VectorStore.search sqrt)

end SpecVectorStore

/-- The square root is not used by the L2 and Dot scores; concrete scenarios over
the rationals pass this stand-in. -/
def no_sqrt : ℚ → ℚ := fun x => x

/-- The store of the tests' error-handling scenario, scaled to dimension 4: one
record, id 1, the zero vector. -/
def store_with_id_1 : VectorStore ℚ :=
  { dimension := 4, metric := DistanceMetric.L2, entries := [(1, [0, 0, 0, 0])] }

/-- The empty store of the tests' edge-case scenario: dimension 128, L2. -/
def empty_store_128 : VectorStore ℚ := VectorStore.create 128 DistanceMetric.L2

/-- Modelled from the spec: the not-found semantics of sections 4.1 and 8 for the
missing core, as the wrapper observes them on a store that does not hold `id`:
`contains` is false, `remove` returns false and leaves the store as it is, `get`
returns no vector, `update` returns false and leaves the store as it is. -/
structure AbsentId {S F : Type} (core : VectorStoreCore S F) (store : S) (id : Nat) : Prop where
  contains : core.contains store id = .ok false
  remove : core.remove store id = { after := store, result := .ok false }
  get : core.get store id = .ok none
  update : ∀ vector, core.update store id vector = { after := store, result := .ok false }

/-- Did the core call end with an exception? -/
def threw {α : Type} : Except Thrown α → Bool
  | .ok _ => false
  | .error _ => true

/-- A core all of whose calls end with the exception `e`, on objects without
state: one of the ways the underlying calls can end. -/
def throwing_hnsw_core (F : Type) (e : Thrown) : HNSWIndexCore Unit F Unit where
  create := fun _ _ _ => .error e
  create_with_params := fun _ _ _ _ _ _ => .error e
  add := fun _ _ _ => { after := (), result := .error e }
  search := fun _ _ _ => .error e
  set_ef_search := fun _ _ => { after := (), result := .error e }
  get_ef_search := fun _ => .error e
  size := fun _ => .error e
  dimension := fun _ => .error e
  capacity := fun _ => .error e
  contains := fun _ _ => .error e
  get_vector := fun _ _ => .error e
  save := fun _ _ _ => { after := (), result := .error e }
  load := fun _ _ => .error e

/-- The store of the spec's search scenario: dimension 4, L2, three records. -/
def store_three : VectorStore ℚ :=
  { dimension := 4, metric := DistanceMetric.L2,
    entries := [(1, [0, 0, 0, 0]), (2, [1, 0, 0, 0]), (3, [2, 0, 0, 0])] }

/-- A destination array of three entries with recognisable content. -/
def dest_three : List (QuiverDBSearchResult ℚ) :=
  [{ id := 7, distance := 9 }, { id := 8, distance := 9 }, { id := 9, distance := 9 }]

/-! ## The core's proximity graph index, modelled from the spec

`core/hnsw_index.h` is not part of the sources.  The model follows the spec,
sections 3, 4.2, 6 and 7.  What the spec leaves to the implementation (level
generator, neighbour selection, graph exploration, defaults, file format
version) is a record of choices the model is parametrised by. -/

/-- Modelled from the spec: a stored record of the missing index, with the level
drawn for it at insertion (section 3, items 1 and 2). -/
structure HNSWRecord (F : Type) where
  id : Nat
  vector : List F
  level : Nat

/-- Modelled from the spec: what a search of the missing index reads (section 3,
items 1 to 4): dimension and metric, the records, the adjacency lists (node id,
level, neighbour ids) and the entry point. -/
structure HNSWGraph (F : Type) where
  dimension : Nat
  metric : HNSWDistanceMetric
  records : List (HNSWRecord F)
  adjacency : List (Nat × Nat × List Nat)
  entry_point : Option Nat

/-- Modelled from the spec: the construction parameters of the missing index
besides dimension and metric (section 4.2). -/
structure HNSWParams where
  max_elements : Nat
  M : Nat
  ef_construction : Nat
  seed : Nat

/-- Modelled from the spec: the Proximity Graph Index of section 3, missing with
`core/hnsw_index.h`: parameters, graph, query-time breadth `ef_search` and the
state of the owned level generator. -/
structure HNSWIndex (F : Type) where
  params : HNSWParams
  graph : HNSWGraph F
  ef_search : Nat
  rng : Nat

/-- Modelled from the spec: what sections 4.2 and 9 leave to the implementation
of the missing index. -/
structure HNSWChoices (F : Type) where
  default_M : Nat
  default_ef_construction : Nat
  default_seed : Nat
  default_ef_search : Nat
  /-- Which breadths `set_ef_search` accepts. -/
  accepts_ef_search : Nat → Bool
  /-- The level generator: from the parameters and its state, a level and the next state. -/
  draw_level : HNSWParams → Nat → Nat × Nat
  /-- The adjacency after linking a new record into the graph. -/
  connect : HNSWParams → HNSWGraph F → HNSWRecord F → List (Nat × Nat × List Nat)
  /-- The ids a descent and best-first expansion of the given width finds for a query. -/
  explore : HNSWGraph F → Nat → List F → List Nat
  /-- The version the file format header carries and the loader supports. -/
  version : Nat

/-- Modelled from the spec: a persisted file (sections 4.2 and 6): either a
well-formed index file, that is a header version followed by the construction
parameters, every vector, every level, the adjacency and the entry point, or a
truncated or corrupted one. -/
inductive FileContent (F : Type)
  | index_file (version : Nat) (params : HNSWParams) (graph : HNSWGraph F)
  | damaged

/-- Modelled from the spec: the local file system `save` and `load` block on:
the files by path, and the paths a write succeeds on. -/
structure FileSystem (F : Type) where
  files : String → Option (FileContent F)
  writable : String → Bool

section SpecHNSWIndex

variable {F : Type}

/-- Modelled from the spec: `size()` of the missing index. -/
def HNSWIndex.size (idx : HNSWIndex F) : Nat := idx.graph.records.length

/-- Modelled from the spec: `contains(id)` of the missing index. -/
def HNSWIndex.contains (idx : HNSWIndex F) (id : Nat) : Bool :=
  idx.graph.records.any fun r => r.id == id

/-- Modelled from the spec: the level of a stored node, `0` for an id not stored. -/
def HNSWIndex.level_of (idx : HNSWIndex F) (id : Nat) : Nat :=
  match idx.graph.records.find? fun r => r.id == id with
  | some r => r.level
  | none => 0

/-- Modelled from the spec: creation of the missing index with all parameters
(section 4.2): an empty graph, no entry point, the generator seeded. -/
def HNSWIndex.create_with_params (ch : HNSWChoices F) (dimension : Nat)
    (metric : HNSWDistanceMetric) (max_elements M ef_construction seed : Nat) : HNSWIndex F :=
  { params := { max_elements := max_elements, M := M, ef_construction := ef_construction,
                seed := seed },
    graph := { dimension := dimension, metric := metric, records := [], adjacency := [],
               entry_point := none },
    ef_search := ch.default_ef_search,
    rng := seed }

/-- Modelled from the spec: creation of the missing index with the default `M`,
`ef_construction` and seed. -/
def HNSWIndex.create (ch : HNSWChoices F) (dimension : Nat) (metric : HNSWDistanceMetric)
    (max_elements : Nat) : HNSWIndex F :=
  HNSWIndex.create_with_params ch dimension metric max_elements ch.default_M
    ch.default_ef_construction ch.default_seed

/-- Modelled from the spec: `add` of the missing index (section 4.2): fails with
`IndexFull` if `size() == max_elements`, with `DuplicateId` if the id is present,
with `InvalidArgument` on a dimension mismatch; otherwise draws the level, links
the node and makes it the entry point if its level exceeds the top level. -/
def HNSWIndex.add (ch : HNSWChoices F) (idx : HNSWIndex F) (id : Nat) (vector : List F) :
    Except ErrorKind (HNSWIndex F) :=
  if idx.size = idx.params.max_elements then .error ErrorKind.IndexFull
  else if idx.contains id then .error ErrorKind.DuplicateId
  else if vector.length ≠ idx.graph.dimension then .error ErrorKind.InvalidArgument
  else
    let drawn := ch.draw_level idx.params idx.rng
    let record : HNSWRecord F := { id := id, vector := vector, level := drawn.1 }
    let entry :=
      match idx.graph.entry_point with
      | none => some id
      | some top => if idx.level_of top < drawn.1 then some id else some top
    .ok { idx with
      rng := drawn.2
      graph := { idx.graph with
        records := idx.graph.records ++ [record]
        adjacency := ch.connect idx.params idx.graph record
        entry_point := entry } }

/-- Modelled from the spec: `get_vector(id)` of the missing index, which fails
with `IdNotFound` if the id is absent. -/
def HNSWIndex.get_vector (idx : HNSWIndex F) (id : Nat) : Except ErrorKind (List F) :=
  match idx.graph.records.find? fun r => r.id == id with
  | some r => .ok r.vector
  | none => .error ErrorKind.IdNotFound

/-- Modelled from the spec: `set_ef_search(n)` of the missing index; a breadth the
implementation does not accept is an `InvalidArgument`. -/
def HNSWIndex.set_ef_search (ch : HNSWChoices F) (idx : HNSWIndex F) (n : Nat) :
    Except ErrorKind (HNSWIndex F) :=
  if ch.accepts_ef_search n then .ok { idx with ef_search := n }
  else .error ErrorKind.InvalidArgument

/-- Modelled from the spec: `save(path)` of the missing index (sections 4.2, 5,
7): writes the versioned file; an I/O failure is a `FileError` and leaves no file
behind. -/
def HNSWIndex.save (ch : HNSWChoices F) (idx : HNSWIndex F) (path : String)
    (fs : FileSystem F) : Except ErrorKind (FileSystem F) :=
  if fs.writable path then
    .ok { fs with files := fun p =>
      if p = path then some (FileContent.index_file ch.version idx.params idx.graph)
      else fs.files p }
  else .error ErrorKind.FileError

/-- Modelled from the spec: `load(path)` of the missing index (sections 4.2, 6,
7): a missing, truncated or corrupted file is a `FileError`, a file of another
version an `InvalidArgument`; otherwise the index is rebuilt from the file, with
the default `ef_search` and the generator seeded anew. -/
def HNSWIndex.load (ch : HNSWChoices F) (path : String) (fs : FileSystem F) :
    Except ErrorKind (HNSWIndex F) :=
  match fs.files path with
  | none => .error ErrorKind.FileError
  | some FileContent.damaged => .error ErrorKind.FileError
  | some (FileContent.index_file version params graph) =>
    if version ≠ ch.version then .error ErrorKind.InvalidArgument
    else .ok { params := params, graph := graph, ef_search := ch.default_ef_search,
               rng := params.seed }

variable [LinearOrderedField F]

/-- Modelled from the spec: the score of section 3 under the index's metric. -/
def hnsw_score (sqrt : F → F) : HNSWDistanceMetric → List F → List F → F
  | HNSWDistanceMetric.L2, a, b => score sqrt DistanceMetric.L2 a b
  | HNSWDistanceMetric.COSINE, a, b => score sqrt DistanceMetric.COSINE a b
  | HNSWDistanceMetric.DOT, a, b => score sqrt DistanceMetric.DOT a b

/-- Modelled from the spec: `search(query, k)` of the missing index (section
4.2): explores with width `ef_search`, raised to `k` if smaller, and returns the
`k` best found by score, ascending, ties by ascending id. -/
def HNSWIndex.search (ch : HNSWChoices F) (sqrt : F → F) (idx : HNSWIndex F) (query : List F)
    (k : Nat) : List (QuiverDBSearchResult F) :=
  let found := ch.explore idx.graph (max idx.ef_search k) query
  let scored : List (QuiverDBSearchResult F) :=
    (idx.graph.records.filter fun r => found.contains r.id).map fun r =>
      { id := r.id, distance := hnsw_score sqrt idx.graph.metric query r.vector }
  (scored.insertionSort result_le).take k

/-- Modelled from the spec: the missing class `quiverdb::HNSWIndex` as the
wrapper calls it.  A failure of kind `k` is thrown as `raise k` and leaves the
index and the file system as they were (section 7). -/
def specHNSWIndexCore (raise : ErrorKind → Thrown) (ch : HNSWChoices F) (sqrt : F → F) :
    HNSWIndexCore (HNSWIndex F) F (FileSystem F) where
  create := fun dimension metric max_elements =>
    .ok (HNSWIndex.create ch dimension metric max_elements)
  create_with_params := fun dimension metric max_elements M ef_construction seed =>
    .ok (HNSWIndex.create_with_params ch dimension metric max_elements M ef_construction seed)
  add := fun idx id vector =>
    match idx.add ch id vector with
    | .ok idx1 => { after := idx1, result := .ok () }
    | .error k => { after := idx, result := .error (raise k) }
  search := fun idx query k => .ok (idx.search ch sqrt query k)
  set_ef_search := fun idx n =>
    match idx.set_ef_search ch n with
    | .ok idx1 => { after := idx1, result := .ok () }
    | .error k => { after := idx, result := .error (raise k) }
  get_ef_search := fun idx => .ok idx.ef_search
  size := fun idx => .ok idx.size
  dimension := fun idx => .ok idx.graph.dimension
  capacity := fun idx => .ok idx.params.max_elements
  contains := fun idx id => .ok (idx.contains id)
  get_vector := fun idx id =>
    match idx.get_vector id with
    | .ok v => .ok v
    | .error k => .error (raise k)
  save := fun idx path fs =>
    match idx.save ch path fs with
    | .ok fs1 => { after := fs1, result := .ok () }
    | .error k => { after := fs, result := .error (raise k) }
  load := fun path fs =>
    match HNSWIndex.load ch path fs with
    | .ok idx => .ok idx
    | .error k => .error (raise k)

end SpecHNSWIndex

/-- A concrete set of choices for the scenarios: every node on level 0 and linked
to all earlier nodes, an exploration that reaches every node, any positive
`ef_search` accepted, file format version 1. -/
def exhaustive_choices : HNSWChoices ℚ where
  default_M := 16
  default_ef_construction := 200
  default_seed := 42
  default_ef_search := 50
  accepts_ef_search := fun n => decide (0 < n)
  draw_level := fun _ rng => (0, rng + 1)
  connect := fun _ g r => g.adjacency ++ [(r.id, 0, g.records.map fun x => x.id)]
  explore := fun g _ _ => g.records.map fun x => x.id
  version := 1

/-- The core used in the scenarios on the index. -/
def scenario_hnsw_core : HNSWIndexCore (HNSWIndex ℚ) ℚ (FileSystem ℚ) :=
  specHNSWIndexCore raise_std exhaustive_choices no_sqrt

/-- The index of the scenarios: capacity 10, dimension 4, L2, the three records of
the spec's search scenario added through the wrapper. -/
def index_three : HNSWIndex ℚ :=
  (quiverdb_hnsw_index_add scenario_hnsw_core
    (quiverdb_hnsw_index_add scenario_hnsw_core
      (quiverdb_hnsw_index_add scenario_hnsw_core
        (HNSWIndex.create exhaustive_choices 4 HNSWDistanceMetric.L2 10) 1 [0, 0, 0, 0]).store
      2 [1, 0, 0, 0]).store
    3 [2, 0, 0, 0]).store

/-- The store of the tests' large-dimension scenario: dimension 1024, three records. -/
def store_1024 : VectorStore ℚ :=
  { dimension := 1024, metric := DistanceMetric.L2,
    entries := [(1, List.replicate 1024 1), (2, List.replicate 1024 2),
                (3, List.replicate 1024 3)] }

/-- A destination array of five entries. -/
def dest_five : List (QuiverDBSearchResult ℚ) :=
  List.replicate 5 { id := 7, distance := 9 }

/-- A mutating call on a flat store: add, update, remove or clear. -/
inductive StoreCall (F : Type)
  | add (id : Nat) (vector : List F)
  | update (id : Nat) (vector : List F)
  | remove (id : Nat)
  | clear

/-- The store behind the handle after one mutating call through the wrapper. -/
def run_store_call {S F : Type} (core : VectorStoreCore S F) (store : S) : StoreCall F → S
  | StoreCall.add id vector => (quiverdb_vector_store_add core store id vector).store
  | StoreCall.update id vector => (quiverdb_vector_store_update core store id vector).store
  | StoreCall.remove id => (quiverdb_vector_store_remove core store id 0).store
  | StoreCall.clear => (quiverdb_vector_store_clear core store).store

/-- The store behind the handle after a sequence of mutating calls. -/
def run_store_calls {S F : Type} (core : VectorStoreCore S F) (store : S)
    (calls : List (StoreCall F)) : S :=
  calls.foldl (run_store_call core) store

/-- Successive `quiverdb_hnsw_index_add` calls that all return `QUIVERDB_OK`: the
index after them, `none` as soon as one of them fails. -/
def hnsw_add_all {I F FS : Type} (core : HNSWIndexCore I F FS) (index : I) :
    List (Nat × List F) → Option I
  | [] => some index
  | item :: rest =>
    if (quiverdb_hnsw_index_add core index item.1 item.2).error = QUIVERDB_OK then
      hnsw_add_all core (quiverdb_hnsw_index_add core index item.1 item.2).store rest
    else none

/-- The index of the capacity scenario: `max_elements = 2`, dimension 4, L2, two
records added through the wrapper. -/
def index_full_two : HNSWIndex ℚ :=
  (quiverdb_hnsw_index_add scenario_hnsw_core
    (quiverdb_hnsw_index_add scenario_hnsw_core
      (HNSWIndex.create exhaustive_choices 4 HNSWDistanceMetric.L2 2) 1 [0, 0, 0, 0]).store
    2 [1, 0, 0, 0]).store

/-- The file system of the persistence scenarios: no file `missing.bin`, a
truncated file `damaged.bin`, a well-formed file `future.bin` of format version 2
holding the index of the scenarios, and a path `/readonly/index.bin` no write
succeeds on. -/
def scenario_fs : FileSystem ℚ where
  files := fun path =>
    if path = "damaged.bin" then some FileContent.damaged
    else if path = "future.bin" then
      some (FileContent.index_file 2 index_three.params index_three.graph)
    else none
  writable := fun path => decide (path ≠ "/readonly/index.bin")

/-- A file system that holds no file and on which every path can be written. -/
def blank_fs : FileSystem ℚ where
  files := fun _ => none
  writable := fun _ => true

/-- The empty index of the tests: dimension 128, L2, capacity 200. -/
def empty_index_128 : HNSWIndex ℚ :=
  HNSWIndex.create exhaustive_choices 128 HNSWDistanceMetric.L2 200

/-! ## `llama_mobile_vd_jni.cpp`: the Android adapter

A handle (`jlong`) is the object behind it, `0` is `none`.  A Java array or
string argument is what `GetFloatArrayElements` or `GetStringUTFChars` yields for
it, `none` when that call returns null.  Allocation of `std::vector` is taken to
succeed. -/

/-- A line written with `LOGE`: the format string and the error code printed. -/
structure LogLine where
  format : String
  code : Option QuiverDBError
  deriving DecidableEq, Repr

/-- What a native method leaves behind: the value returned to the Java caller,
whether a Java exception is pending on return, the object behind the handle, and
the lines written to the Android log. -/
structure Native (S α : Type) where
  value : α
  pending_exception : Bool
  store : S
  log : List LogLine

/-- What the Java caller of a native method observes of the call: the returned
value and a pending exception. -/
def Native.observed {S α : Type} (r : Native S α) : α × Bool := (r.value, r.pending_exception)

/-- The conversion `static_cast<uint64_t>(id)` of a `jlong`. -/
def uint64_of_jlong (id : Int) : Nat := (id % 2 ^ 64).toNat

/-- The conversion of a `jint` argument to `size_t`. -/
def size_of_jint (n : Int) : Nat := (n % 2 ^ 64).toNat

/-- The conversion of a `jint` argument to `uint32_t`. -/
def uint32_of_jint (n : Int) : Nat := (n % 2 ^ 32).toNat

/-- A `uint64_t` read as the `jlong` the `SearchResult` constructor `(JF)V` takes. -/
def jlong_of_uint64 (n : Nat) : Int := if n < 2 ^ 63 then (n : Int) else (n : Int) - 2 ^ 64

/-- A Java `SearchResult` object: the arguments its constructor was given. -/
structure JavaSearchResult (F : Type) where
  id : Int
  distance : F
  deriving DecidableEq, Repr

/-- A value-initialised element of `std::vector<QuiverDBSearchResult>(k)`. -/
def zero_entry {F : Type} [Zero F] : QuiverDBSearchResult F := { id := 0, distance := 0 }

/-- The outcomes of the JNI calls `createSearchResultArray` makes: whether
`FindClass` and `GetMethodID` succeed, whether `NewObjectArray` of a given length
does, and whether the `NewObject` for a given index does.  A call that fails
returns null and leaves its Java exception pending. -/
structure JNIEnv where
  find_class : Bool
  get_method_id : Bool
  new_object_array : Nat → Bool
  new_object : Nat → Bool

section JNI

variable {S I F FS : Type}

/-- The loop of `createSearchResultArray`, started at index `i` with the results
still to be converted; `none` is the `nullptr` of a failed `NewObject`. -/
def fill_result_array (env : JNIEnv) :
    List (QuiverDBSearchResult F) → Nat → List (Option (JavaSearchResult F)) →
      Option (List (Option (JavaSearchResult F)))
  | [], _, resultArray => some resultArray
  | r :: rest, i, resultArray =>
    if !env.new_object i then none
    else
      fill_result_array env rest (i + 1)
        (resultArray.set i (some { id := jlong_of_uint64 r.id, distance := r.distance }))

/-- The returned array holds object references, `none` for a null element; the
value `none` is the `nullptr` returned on failure, after the line written with
`LOGE`; the function clears no exception, so the one of the failed JNI call is
pending on return. -/
def createSearchResultArray (env : JNIEnv) (results : List (QuiverDBSearchResult F)) :
    Native Unit (Option (List (Option (JavaSearchResult F)))) :=
  if !env.find_class then
    { value := none, pending_exception := true, store := (),
      log := [{ format := "Failed to find SearchResult class", code := none }] }
  else if !env.get_method_id then
    { value := none, pending_exception := true, store := (),
      log := [{ format := "Failed to find SearchResult constructor", code := none }] }
  else if !env.new_object_array results.length then
    { value := none, pending_exception := true, store := (),
      log := [{ format := "Failed to create SearchResult array", code := none }] }
  else
    match fill_result_array env results 0 (List.replicate results.length none) with
    | none =>
      { value := none, pending_exception := true, store := (),
        log := [{ format := "Failed to create SearchResult object", code := none }] }
    | some resultArray =>
      { value := some resultArray, pending_exception := false, store := (), log := [] }

def nativeAddVector (core : VectorStoreCore S F) (handle : S) (id : Int)
    (vector : Option (List F)) : Native S Unit :=
  match vector with
  | none =>
    { value := (), pending_exception := false, store := handle,
      log := [{ format := "Failed to get vector data", code := none }] }
  | some vectorData =>
    let result := quiverdb_vector_store_add core handle (uint64_of_jlong id) vectorData
    if result.error ≠ QUIVERDB_OK then
      { value := (), pending_exception := false, store := result.store,
        log := [{ format := "Failed to add vector: %d", code := some result.error }] }
    else { value := (), pending_exception := false, store := result.store, log := [] }

def nativeUpdateVector (core : VectorStoreCore S F) (handle : S) (id : Int)
    (vector : Option (List F)) : Native S Bool :=
  match vector with
  | none =>
    { value := false, pending_exception := false, store := handle,
      log := [{ format := "Failed to get vector data", code := none }] }
  | some vectorData =>
    let result := quiverdb_vector_store_update core handle (uint64_of_jlong id) vectorData
    if result.error ≠ QUIVERDB_OK then
      { value := false, pending_exception := false, store := result.store,
        log := [{ format := "Failed to update vector: %d", code := some result.error }] }
    else { value := true, pending_exception := false, store := result.store, log := [] }

def nativeSearchVectors [Zero F] (env : JNIEnv) (core : VectorStoreCore S F) (handle : S)
    (query : Option (List F)) (k : Int) :
    Native S (Option (List (Option (JavaSearchResult F)))) :=
  match query with
  | none =>
    { value := none, pending_exception := false, store := handle,
      log := [{ format := "Failed to get query data", code := none }] }
  | some queryData =>
    let results : List (QuiverDBSearchResult F) :=
      List.replicate (size_of_jint k) zero_entry
    let result :=
      quiverdb_vector_store_search core handle queryData (size_of_jint k) results results.length
    if result.1 ≠ QUIVERDB_OK then
      { value := none, pending_exception := false, store := handle,
        log := [{ format := "Failed to search vectors: %d", code := some result.1 }] }
    else
      let created := createSearchResultArray env result.2
      { value := created.value, pending_exception := created.pending_exception,
        store := handle, log := created.log }

/-- The second component of the result is the index handle returned, `none` for `0`. -/
def nativeCreateHNSWIndex (core : HNSWIndexCore I F FS)
    (dimension metric maxElements M efConstruction seed : Int) : Native Unit (Option I) :=
  let result := quiverdb_hnsw_index_create_with_params core (size_of_jint dimension) metric
    (size_of_jint maxElements) (size_of_jint M) (size_of_jint efConstruction)
    (uint32_of_jint seed) none
  if result.1 ≠ QUIVERDB_OK then
    { value := none, pending_exception := false, store := (),
      log := [{ format := "Failed to create HNSW index: %d", code := some result.1 }] }
  else { value := result.2, pending_exception := false, store := (), log := [] }

def nativeAddToHNSWIndex (core : HNSWIndexCore I F FS) (handle : I) (id : Int)
    (vector : Option (List F)) : Native I Unit :=
  match vector with
  | none =>
    { value := (), pending_exception := false, store := handle,
      log := [{ format := "Failed to get vector data", code := none }] }
  | some vectorData =>
    let result := quiverdb_hnsw_index_add core handle (uint64_of_jlong id) vectorData
    if result.error ≠ QUIVERDB_OK then
      { value := (), pending_exception := false, store := result.store,
        log := [{ format := "Failed to add vector to HNSW index: %d",
                  code := some result.error }] }
    else { value := (), pending_exception := false, store := result.store, log := [] }

def nativeSearchHNSWIndex [Zero F] (env : JNIEnv) (core : HNSWIndexCore I F FS) (handle : I)
    (query : Option (List F)) (k : Int) :
    Native I (Option (List (Option (JavaSearchResult F)))) :=
  match query with
  | none =>
    { value := none, pending_exception := false, store := handle,
      log := [{ format := "Failed to get query data", code := none }] }
  | some queryData =>
    let results : List (QuiverDBSearchResult F) :=
      List.replicate (size_of_jint k) zero_entry
    let result :=
      quiverdb_hnsw_index_search core handle queryData (size_of_jint k) results results.length
    if result.1 ≠ QUIVERDB_OK then
      { value := none, pending_exception := false, store := handle,
        log := [{ format := "Failed to search HNSW index: %d", code := some result.1 }] }
    else
      let created := createSearchResultArray env result.2
      { value := created.value, pending_exception := created.pending_exception,
        store := handle, log := created.log }

def nativeSetEfSearch (core : HNSWIndexCore I F FS) (handle : I) (ef : Int) : Native I Unit :=
  let result := quiverdb_hnsw_index_set_ef_search core handle (size_of_jint ef)
  if result.error ≠ QUIVERDB_OK then
    { value := (), pending_exception := false, store := result.store,
      log := [{ format := "Failed to set ef_search: %d", code := some result.error }] }
  else { value := (), pending_exception := false, store := result.store, log := [] }

/-- The index handle is not used: the function returns the constant `0`. -/
def nativeHNSWIndexMetric (_handle : I) : Int := 0

/-- The file system plays the part of the object left behind. -/
def nativeSaveHNSWIndex (core : HNSWIndexCore I F FS) (handle : I) (filename : Option String)
    (fs : FS) : Native FS Unit :=
  match filename with
  | none =>
    { value := (), pending_exception := false, store := fs,
      log := [{ format := "Failed to get filename string", code := none }] }
  | some cFilename =>
    let result := quiverdb_hnsw_index_save core handle cFilename fs
    if result.error ≠ QUIVERDB_OK then
      { value := (), pending_exception := false, store := result.store,
        log := [{ format := "Failed to save HNSW index: %d", code := some result.error }] }
    else { value := (), pending_exception := false, store := result.store, log := [] }

end JNI

/-- The three results of the spec's search scenario, in order. -/
def three_results : List (QuiverDBSearchResult ℚ) :=
  [{ id := 1, distance := 0 }, { id := 2, distance := 1 }, { id := 3, distance := 4 }]

/-- The Java object `createSearchResultArray` builds for a result. -/
def java_hit {F : Type} (r : QuiverDBSearchResult F) : JavaSearchResult F :=
  { id := jlong_of_uint64 r.id, distance := r.distance }

/-- A JNI environment in which every call of `createSearchResultArray` succeeds. -/
def healthy_env : JNIEnv where
  find_class := true
  get_method_id := true
  new_object_array := fun _ => true
  new_object := fun _ => true

/-! ## Specification model of the mapped store

The header declares `quiverdb_mmap_vector_store_builder_*` and
`quiverdb_mmap_vector_store_*`; the wrapper source defines none of them, and the
Builder and Store they would forward to are not among the sources. -/

/-- Modelled from the spec: the Builder of the Immutable Mapped Store (section
4.3), whose wrapper functions are declared in the header and defined nowhere in
the sources: dimension, metric and the accumulated records. -/
structure MMapVectorStoreBuilder (F : Type) where
  dimension : Nat
  metric : DistanceMetric
  records : List (Nat × List F)

/-- Modelled from the spec: the file a Builder writes (section 4.3): a header
(dimension, metric, count) followed by a contiguous, id-sorted array of records. -/
structure MMapFile (F : Type) where
  dimension : Nat
  metric : DistanceMetric
  count : Nat
  records : List (Nat × List F)

/-- Modelled from the spec: what a path of the file system holds for the mapped
store: a file with a recognised header, or something else. -/
inductive MMapContent (F : Type)
  | store_file (file : MMapFile F)
  | unrecognized

/-- Modelled from the spec: the file system `save` and `open` of the mapped store
block on. -/
structure MMapFileSystem (F : Type) where
  files : String → Option (MMapContent F)
  writable : String → Bool

/-- Modelled from the spec: the Store of section 4.3, a read-only view over a
file. -/
structure MMapVectorStore (F : Type) where
  file : MMapFile F

section SpecMMap

variable {F : Type}

/-- Modelled from the spec: `create(dimension, metric)` of the Builder. -/
def MMapVectorStoreBuilder.create (dimension : Nat) (metric : DistanceMetric) :
    MMapVectorStoreBuilder F :=
  { dimension := dimension, metric := metric, records := [] }

/-- Modelled from the spec: `add(id, vector)` of the Builder, which fails on a
dimension mismatch or a duplicate id exactly as the flat store does. -/
def MMapVectorStoreBuilder.add (b : MMapVectorStoreBuilder F) (id : Nat) (vector : List F) :
    Except ErrorKind (MMapVectorStoreBuilder F) :=
  if vector.length ≠ b.dimension then .error ErrorKind.InvalidArgument
  else if b.records.any (fun r => r.1 == id) then .error ErrorKind.DuplicateId
  else .ok { b with records := b.records ++ [(id, vector)] }

/-- Modelled from the spec: the Builder's `add` on a sequence of records, stopping
at the first failure. -/
def MMapVectorStoreBuilder.add_all (b : MMapVectorStoreBuilder F) :
    List (Nat × List F) → Except ErrorKind (MMapVectorStoreBuilder F)
  | [] => .ok b
  | r :: rest =>
    match b.add r.1 r.2 with
    | .ok b1 => b1.add_all rest
    | .error e => .error e

/-- Modelled from the spec: `size()` of the Builder. -/
def MMapVectorStoreBuilder.size (b : MMapVectorStoreBuilder F) : Nat := b.records.length

/-- Modelled from the spec: the order of the id-sorted array. -/
def id_le (a b : Nat × List F) : Prop := a.1 ≤ b.1

instance id_le_decidable : DecidableRel (id_le : Nat × List F → _ → Prop) :=
  fun a b => by unfold id_le; exact inferInstance

/-- Modelled from the spec: the file image of a Builder: the header and the
records, sorted once, at save time. -/
def MMapVectorStoreBuilder.image (b : MMapVectorStoreBuilder F) : MMapFile F :=
  { dimension := b.dimension, metric := b.metric, count := b.records.length,
    records := b.records.insertionSort id_le }

/-- Modelled from the spec: `save(path)` of the Builder, which writes the file; an
I/O failure is a `FileError`. -/
def MMapVectorStoreBuilder.save (b : MMapVectorStoreBuilder F) (path : String)
    (fs : MMapFileSystem F) : Except ErrorKind (MMapFileSystem F) :=
  if fs.writable path then
    .ok { fs with files := fun p =>
      if p = path then some (MMapContent.store_file b.image) else fs.files p }
  else .error ErrorKind.FileError

/-- Modelled from the spec: `open(path)` of the Store, which fails with `FileError`
if the file is missing, truncated, or has an unrecognized header. -/
def MMapVectorStore.open (path : String) (fs : MMapFileSystem F) :
    Except ErrorKind (MMapVectorStore F) :=
  match fs.files path with
  | none => .error ErrorKind.FileError
  | some MMapContent.unrecognized => .error ErrorKind.FileError
  | some (MMapContent.store_file file) =>
    if file.records.length ≠ file.count then .error ErrorKind.FileError
    else .ok { file := file }

/-- Modelled from the spec: `size()` of the Store, read from the mapped header. -/
def MMapVectorStore.size (st : MMapVectorStore F) : Nat := st.file.count

/-- Modelled from the spec: `dimension()` of the Store, read from the mapped header. -/
def MMapVectorStore.dimension (st : MMapVectorStore F) : Nat := st.file.dimension

/-- Modelled from the spec: binary search over the sorted id array, between the
indices `lo` (included) and `hi` (excluded). -/
def binary_search (records : List (Nat × List F)) (id : Nat) (lo hi : Nat) :
    Option (List F) :=
  if lo < hi then
    match records[(lo + hi) / 2]? with
    | none => none
    | some r =>
      if r.1 = id then some r.2
      else if r.1 < id then binary_search records id ((lo + hi) / 2 + 1) hi
      else binary_search records id lo ((lo + hi) / 2)
  else none
termination_by hi - lo
decreasing_by
  all_goals simp_wf
  all_goals omega

/-- Modelled from the spec: `get(id)` of the Store, resolved by binary search over
the sorted id array. -/
def MMapVectorStore.get (st : MMapVectorStore F) (id : Nat) : Option (List F) :=
  binary_search st.file.records id 0 st.file.count

end SpecMMap

/-- The records of the scenario: 1,000 vectors of dimension 4 under the ids
0, ..., 999. -/
def records_1000 : List (Nat × List ℚ) :=
  (List.range 1000).map fun i => (i, List.replicate 4 (i : ℚ))

/-- An empty file system on which every path can be written. -/
def empty_disk : MMapFileSystem ℚ :=
  { files := fun _ => none, writable := fun _ => true }

/-! ## Scenario of an approximate search -/

/-- Modelled from the spec: the stored records the exploration of
`search(query, k)` finds on the missing index (section 4.2), the candidates the
`k` best are taken from. -/
def HNSWIndex.found {F : Type} (ch : HNSWChoices F) (idx : HNSWIndex F) (query : List F)
    (k : Nat) : List (HNSWRecord F) :=
  idx.graph.records.filter fun r =>
    (ch.explore idx.graph (max idx.ef_search k) query).contains r.id

section SpecLemmas

variable {F : Type}

theorem VectorStore.contains_eq_false_iff (s : VectorStore F) (id : Nat) :
    s.contains id = false ↔ ∀ e ∈ s.entries, e.1 ≠ id := by
  simp [VectorStore.contains]

theorem VectorStore.get_of_absent (s : VectorStore F) (id : Nat) (h : s.contains id = false) :
    s.get id = none := by
  rw [VectorStore.contains_eq_false_iff] at h
  simp only [VectorStore.get, Option.map_eq_none', List.find?_eq_none]
  intro e he
  simpa using h e he

/-- The model of the core treats an id it does not hold as section 4.1 says. -/
theorem spec_core_absent (raise : ErrorKind → Thrown) (search : SearchFn F)
    (s : VectorStore F) (id : Nat) (h : s.contains id = false) :
    AbsentId (specVectorStoreCoreWith raise search) s id where
  contains := by simp [specVectorStoreCoreWith, h]
  remove := by simp [specVectorStoreCoreWith, VectorStore.remove, h]
  get := by simp [specVectorStoreCoreWith, VectorStore.get_of_absent s id h]
  update := fun vector => by simp [specVectorStoreCoreWith, VectorStore.update, h]

end SpecLemmas

/-! ## Error handling of the flat store functions -/

/-- C1 (defect of the code): `quiverdb_vector_store_add` cannot report a
duplicate id.  Whatever the core does, the code it returns is not
`QUIVERDB_DUPLICATE_ID`; with the modelled core, adding id 1 to a store that
holds id 1 is refused by the core, the size stays 1, and whatever exception the
core uses for the refusal the wrapper returns another code
(`QUIVERDB_ERROR` for the runtime error its sibling handlers expect). -/
theorem vector_store_add_duplicate_not_reported :
    (∀ (S F : Type) (core : VectorStoreCore S F) (store : S) (id : Nat) (vector : List F),
      (quiverdb_vector_store_add core store id vector).error ≠ QUIVERDB_DUPLICATE_ID) ∧
    (∀ raise : ErrorKind → Thrown,
      (quiverdb_vector_store_add (specVectorStoreCore raise no_sqrt) store_with_id_1 1
        [0, 0, 0, 0]).error ≠ QUIVERDB_DUPLICATE_ID ∧
      (quiverdb_vector_store_add (specVectorStoreCore raise no_sqrt) store_with_id_1 1
        [0, 0, 0, 0]).store.size = 1) ∧
    (quiverdb_vector_store_add (specVectorStoreCore raise_std no_sqrt) store_with_id_1 1
      [0, 0, 0, 0]).error = QUIVERDB_ERROR := by
  have key : ∀ (S F : Type) (core : VectorStoreCore S F) (store : S) (id : Nat)
      (vector : List F),
      (quiverdb_vector_store_add core store id vector).error ≠ QUIVERDB_DUPLICATE_ID := by
    intro S F core store id vector
    unfold quiverdb_vector_store_add
    dsimp only
    split
    · simp
    · simp only [catch_arg_alloc]
      split_ifs <;> simp
  refine ⟨key, fun raise => ⟨key _ _ _ _ _ _, rfl⟩, rfl⟩

/-- C2: when the store does not hold `id` (the core reports it absent, as section
4.1 says), `quiverdb_vector_store_remove` returns `QUIVERDB_OK`, sets the removed
flag to 0 whatever it held, and the store behind the handle is the store as it
was. -/
theorem vector_store_remove_absent {S F : Type} (core : VectorStoreCore S F) (store : S)
    (id : Nat) (removed : Int) (h : AbsentId core store id) :
    quiverdb_vector_store_remove core store id removed =
      { error := QUIVERDB_OK, store := store, out := 0 } := by
  simp [quiverdb_vector_store_remove, h.remove]

/-- Witness of C2: id 9999 on the modelled store that holds id 1 only. -/
theorem vector_store_remove_absent_witness :
    AbsentId (specVectorStoreCore raise_std no_sqrt) store_with_id_1 9999 ∧
    quiverdb_vector_store_remove (specVectorStoreCore raise_std no_sqrt) store_with_id_1 9999 5 =
      { error := QUIVERDB_OK, store := store_with_id_1, out := 0 } :=
  ⟨spec_core_absent _ _ _ _ rfl,
    vector_store_remove_absent _ _ _ _ (spec_core_absent _ _ _ _ rfl)⟩

/-- C3 (defect of the code): `quiverdb_vector_store_remove` has no path to
`QUIVERDB_ID_NOT_FOUND`, whatever the core does.  On the modelled store that holds
id 1 only, removing id 9999 returns `QUIVERDB_OK` with the removed flag at 0, and
so does removing id 1 from the empty store, where the tests expect
`QUIVERDB_ID_NOT_FOUND`; the sibling `quiverdb_vector_store_update` reports the
same absent id as `QUIVERDB_ID_NOT_FOUND`. -/
theorem vector_store_remove_absent_not_reported :
    (∀ (S F : Type) (core : VectorStoreCore S F) (store : S) (id : Nat) (removed : Int),
      (quiverdb_vector_store_remove core store id removed).error ≠ QUIVERDB_ID_NOT_FOUND) ∧
    quiverdb_vector_store_remove (specVectorStoreCore raise_std no_sqrt) store_with_id_1 9999 0 =
      { error := QUIVERDB_OK, store := store_with_id_1, out := 0 } ∧
    quiverdb_vector_store_remove (specVectorStoreCore raise_std no_sqrt) empty_store_128 1 0 =
      { error := QUIVERDB_OK, store := empty_store_128, out := 0 } ∧
    (quiverdb_vector_store_update (specVectorStoreCore raise_std no_sqrt) store_with_id_1 9999
      [0, 0, 0, 0]).error = QUIVERDB_ID_NOT_FOUND := by
  refine ⟨?_, rfl, rfl, by decide⟩
  intro S F core store id removed
  unfold quiverdb_vector_store_remove
  dsimp only
  split <;> simp

/-- C4: when the store has dimension `d` and does not hold `id`, and the
destination has room for `vector_size ≥ d` floats, `quiverdb_vector_store_get`
returns `QUIVERDB_ID_NOT_FOUND` and the destination is as it was. -/
theorem vector_store_get_absent {S F : Type} (core : VectorStoreCore S F) (store : S)
    (id d : Nat) (vector : List F) (vector_size : Nat) (hd : core.dimension store = .ok d)
    (h : AbsentId core store id) (hsize : d ≤ vector_size) :
    quiverdb_vector_store_get core store id vector vector_size =
      (QUIVERDB_ID_NOT_FOUND, vector) := by
  simp [quiverdb_vector_store_get, hd, h.get, Nat.not_lt.mpr hsize]

/-- Witness of C4: id 9999, a destination of 4 floats, the modelled store of
dimension 4 that holds id 1 only. -/
theorem vector_store_get_absent_witness :
    (specVectorStoreCore raise_std no_sqrt).dimension store_with_id_1 = .ok 4 ∧
    AbsentId (specVectorStoreCore raise_std no_sqrt) store_with_id_1 9999 ∧ 4 ≤ 4 ∧
    quiverdb_vector_store_get (specVectorStoreCore raise_std no_sqrt) store_with_id_1 9999
      [7, 7, 7, 7] 4 = (QUIVERDB_ID_NOT_FOUND, [7, 7, 7, 7]) :=
  ⟨rfl, spec_core_absent _ _ _ _ rfl, le_refl 4,
    vector_store_get_absent _ _ _ 4 _ _ rfl (spec_core_absent _ _ _ _ rfl) (le_refl 4)⟩

/-- C5: when the store does not hold `id`, `quiverdb_vector_store_update` returns
`QUIVERDB_ID_NOT_FOUND` and the store behind the handle is the store as it was. -/
theorem vector_store_update_absent {S F : Type} (core : VectorStoreCore S F) (store : S)
    (id : Nat) (vector : List F) (h : AbsentId core store id) :
    quiverdb_vector_store_update core store id vector =
      { error := QUIVERDB_ID_NOT_FOUND, store := store, out := () } := by
  simp [quiverdb_vector_store_update, h.update vector]

/-- Witness of C5: id 9999 on the modelled store that holds id 1 only. -/
theorem vector_store_update_absent_witness :
    AbsentId (specVectorStoreCore raise_std no_sqrt) store_with_id_1 9999 ∧
    quiverdb_vector_store_update (specVectorStoreCore raise_std no_sqrt) store_with_id_1 9999
      [1, 2, 3, 4] =
      { error := QUIVERDB_ID_NOT_FOUND, store := store_with_id_1, out := () } :=
  ⟨spec_core_absent _ _ _ _ rfl,
    vector_store_update_absent _ _ _ _ (spec_core_absent _ _ _ _ rfl)⟩

/-- C6: when `results_size < k`, both search functions return
`QUIVERDB_INVALID_ARGUMENT` and the destination is as it was, for every core:
the answer does not depend on what the core's search would return or throw, so
the search is not run. -/
theorem search_rejects_small_destination {S I F FS : Type} (vs : VectorStoreCore S F)
    (hnsw : HNSWIndexCore I F FS) (store : S) (index : I) (query : List F) (k : Nat)
    (results : List (QuiverDBSearchResult F)) (results_size : Nat) (h : results_size < k) :
    quiverdb_vector_store_search vs store query k results results_size =
      (QUIVERDB_INVALID_ARGUMENT, results) ∧
    quiverdb_hnsw_index_search hnsw index query k results results_size =
      (QUIVERDB_INVALID_ARGUMENT, results) := by
  simp [quiverdb_vector_store_search, quiverdb_hnsw_index_search, h]

/-- Witness of C6: a destination of one entry and `k = 2`, on the modelled store
and on a core whose search would throw. -/
theorem search_rejects_small_destination_witness :
    1 < 2 ∧
    quiverdb_vector_store_search (specVectorStoreCore raise_std no_sqrt) store_with_id_1
      [0, 0, 0, 0] 2 [{ id := 7, distance := 9 }] 1 =
      (QUIVERDB_INVALID_ARGUMENT, [{ id := 7, distance := 9 }]) ∧
    quiverdb_hnsw_index_search
      (throwing_hnsw_core ℚ { cls := ExnClass.bad_alloc, what := "std::bad_alloc" }) ()
      [0, 0, 0, 0] 2 [{ id := 7, distance := 9 }] 1 =
      (QUIVERDB_INVALID_ARGUMENT, [{ id := 7, distance := 9 }]) :=
  ⟨by decide, search_rejects_small_destination _ _ _ _ _ _ _ _ (by decide)⟩

/-- C7 (defect of the code): a metric selector outside 0, 1, 2 is not refused.
For every core, `quiverdb_vector_store_create` does with such a selector exactly
what it does with `QUIVERDB_DISTANCE_L2`; with selector 999 and dimension 128, as
in the error-handling test, the modelled core creates the store and the wrapper
returns `QUIVERDB_OK` with an L2 store behind the handle. -/
theorem vector_store_create_invalid_metric_accepted :
    (∀ (S F : Type) (core : VectorStoreCore S F) (dimension : Nat)
      (metric : QuiverDBDistanceMetric) (store : Option S),
      metric ≠ QUIVERDB_DISTANCE_L2 → metric ≠ QUIVERDB_DISTANCE_COSINE →
      metric ≠ QUIVERDB_DISTANCE_DOT →
      quiverdb_vector_store_create core dimension metric store =
        quiverdb_vector_store_create core dimension QUIVERDB_DISTANCE_L2 store) ∧
    quiverdb_vector_store_create (specVectorStoreCore raise_std no_sqrt) 128 999 none =
      (QUIVERDB_OK, some (VectorStore.create 128 DistanceMetric.L2)) := by
  refine ⟨?_, rfl⟩
  intro S F core dimension metric store h0 h1 h2
  simp [quiverdb_vector_store_create, convert_metric, h0, h1, h2]

/-- C8, as stated, fails: when the core's `add` throws an exception that is none
of `std::invalid_argument`, `std::runtime_error`, `std::bad_alloc`,
`quiverdb_hnsw_index_add` returns the generic `QUIVERDB_ERROR`. -/
theorem hnsw_index_add_returns_generic_error :
    (quiverdb_hnsw_index_add (throwing_hnsw_core ℚ { cls := ExnClass.other, what := "" }) () 1
      [0, 0, 0, 0]).error = QUIVERDB_ERROR := by
  decide

/-- C8, amended: besides `QUIVERDB_OK` and the six kinds, a wrapper function can
return the generic `QUIVERDB_ERROR`, and it does so only when a call of the core
ended with an exception, never after the core returned normally.  One conjunct
for each function of the wrapper that returns a `QuiverDBError`. -/
theorem generic_error_only_after_exception {S I F FS : Type} (vs : VectorStoreCore S F)
    (hnsw : HNSWIndexCore I F FS) :
    (∀ dimension metric store,
      (quiverdb_vector_store_create vs dimension metric store).1 = QUIVERDB_ERROR →
        threw (vs.create dimension (convert_metric metric)) = true) ∧
    (∀ store id vector,
      (quiverdb_vector_store_add vs store id vector).error = QUIVERDB_ERROR →
        threw (vs.add store id vector).result = true) ∧
    (∀ store id removed,
      (quiverdb_vector_store_remove vs store id removed).error = QUIVERDB_ERROR →
        threw (vs.remove store id).result = true) ∧
    (∀ store id vector vector_size,
      (quiverdb_vector_store_get vs store id vector vector_size).1 = QUIVERDB_ERROR →
        threw (vs.dimension store) = true ∨ threw (vs.get store id) = true) ∧
    (∀ store id vector,
      (quiverdb_vector_store_update vs store id vector).error = QUIVERDB_ERROR →
        threw (vs.update store id vector).result = true) ∧
    (∀ store query k results results_size,
      (quiverdb_vector_store_search vs store query k results results_size).1 = QUIVERDB_ERROR →
        threw (vs.search store query k) = true) ∧
    (∀ store size,
      (quiverdb_vector_store_size vs store size).1 = QUIVERDB_ERROR →
        threw (vs.size store) = true) ∧
    (∀ store dimension,
      (quiverdb_vector_store_dimension vs store dimension).1 = QUIVERDB_ERROR →
        threw (vs.dimension store) = true) ∧
    (∀ store metric,
      (quiverdb_vector_store_metric vs store metric).1 = QUIVERDB_ERROR →
        threw (vs.metric store) = true) ∧
    (∀ store id contains,
      (quiverdb_vector_store_contains vs store id contains).1 = QUIVERDB_ERROR →
        threw (vs.contains store id) = true) ∧
    (∀ store capacity,
      (quiverdb_vector_store_reserve vs store capacity).error = QUIVERDB_ERROR →
        threw (vs.reserve store capacity).result = true) ∧
    (∀ store,
      (quiverdb_vector_store_clear vs store).error = QUIVERDB_ERROR →
        threw (vs.clear store).result = true) ∧
    (∀ dimension metric max_elements index,
      (quiverdb_hnsw_index_create hnsw dimension metric max_elements index).1 = QUIVERDB_ERROR →
        threw (hnsw.create dimension (convert_hnsw_metric metric) max_elements) = true) ∧
    (∀ dimension metric max_elements M ef_construction seed index,
      (quiverdb_hnsw_index_create_with_params hnsw dimension metric max_elements M
        ef_construction seed index).1 = QUIVERDB_ERROR →
        threw (hnsw.create_with_params dimension (convert_hnsw_metric metric) max_elements M
          ef_construction seed) = true) ∧
    (∀ index id vector,
      (quiverdb_hnsw_index_add hnsw index id vector).error = QUIVERDB_ERROR →
        threw (hnsw.add index id vector).result = true) ∧
    (∀ index query k results results_size,
      (quiverdb_hnsw_index_search hnsw index query k results results_size).1 = QUIVERDB_ERROR →
        threw (hnsw.search index query k) = true) ∧
    (∀ index ef_search,
      (quiverdb_hnsw_index_set_ef_search hnsw index ef_search).error = QUIVERDB_ERROR →
        threw (hnsw.set_ef_search index ef_search).result = true) ∧
    (∀ index ef_search,
      (quiverdb_hnsw_index_get_ef_search hnsw index ef_search).1 = QUIVERDB_ERROR →
        threw (hnsw.get_ef_search index) = true) ∧
    (∀ index size,
      (quiverdb_hnsw_index_size hnsw index size).1 = QUIVERDB_ERROR →
        threw (hnsw.size index) = true) ∧
    (∀ index dimension,
      (quiverdb_hnsw_index_dimension hnsw index dimension).1 = QUIVERDB_ERROR →
        threw (hnsw.dimension index) = true) ∧
    (∀ index capacity,
      (quiverdb_hnsw_index_capacity hnsw index capacity).1 = QUIVERDB_ERROR →
        threw (hnsw.capacity index) = true) ∧
    (∀ index id contains,
      (quiverdb_hnsw_index_contains hnsw index id contains).1 = QUIVERDB_ERROR →
        threw (hnsw.contains index id) = true) ∧
    (∀ index id vector vector_size,
      (quiverdb_hnsw_index_get_vector hnsw index id vector vector_size).1 = QUIVERDB_ERROR →
        threw (hnsw.dimension index) = true ∨ threw (hnsw.get_vector index id) = true) ∧
    (∀ index filename fs,
      (quiverdb_hnsw_index_save hnsw index filename fs).error = QUIVERDB_ERROR →
        threw (hnsw.save index filename fs).result = true) ∧
    (∀ filename fs index,
      (quiverdb_hnsw_index_load hnsw filename fs index).1 = QUIVERDB_ERROR →
        threw (hnsw.load filename fs) = true) := by
  refine ⟨?_, ?_, ?_, ?_, ?_, ?_, ?_, ?_, ?_, ?_, ?_, ?_, ?_, ?_, ?_, ?_, ?_, ?_, ?_, ?_, ?_,
    ?_, ?_, ?_, ?_⟩
  · intro dimension metric store
    unfold quiverdb_vector_store_create
    split <;> simp_all [threw]
  · intro store id vector
    unfold quiverdb_vector_store_add
    dsimp only
    split <;> simp_all [threw]
  · intro store id removed
    unfold quiverdb_vector_store_remove
    dsimp only
    split <;> simp_all [threw]
  · intro store id vector vector_size
    unfold quiverdb_vector_store_get
    split
    · simp_all [threw]
    · split
      · simp
      · split <;> simp_all [threw]
  · intro store id vector
    unfold quiverdb_vector_store_update
    dsimp only
    split
    · split <;> simp
    · simp_all [threw]
  · intro store query k results results_size
    unfold quiverdb_vector_store_search
    split
    · simp
    · split <;> simp_all [threw]
  · intro store size
    unfold quiverdb_vector_store_size
    split <;> simp_all [threw]
  · intro store dimension
    unfold quiverdb_vector_store_dimension
    split <;> simp_all [threw]
  · intro store metric
    unfold quiverdb_vector_store_metric
    split <;> simp_all [threw]
  · intro store id contains
    unfold quiverdb_vector_store_contains
    split <;> simp_all [threw]
  · intro store capacity
    unfold quiverdb_vector_store_reserve
    dsimp only
    split <;> simp_all [threw]
  · intro store
    unfold quiverdb_vector_store_clear
    dsimp only
    split <;> simp_all [threw]
  · intro dimension metric max_elements index
    unfold quiverdb_hnsw_index_create
    split <;> simp_all [threw]
  · intro dimension metric max_elements M ef_construction seed index
    unfold quiverdb_hnsw_index_create_with_params
    split <;> simp_all [threw]
  · intro index id vector
    unfold quiverdb_hnsw_index_add
    dsimp only
    split <;> simp_all [threw]
  · intro index query k results results_size
    unfold quiverdb_hnsw_index_search
    split
    · simp
    · split <;> simp_all [threw]
  · intro index ef_search
    unfold quiverdb_hnsw_index_set_ef_search
    dsimp only
    split <;> simp_all [threw]
  · intro index ef_search
    unfold quiverdb_hnsw_index_get_ef_search
    split <;> simp_all [threw]
  · intro index size
    unfold quiverdb_hnsw_index_size
    split <;> simp_all [threw]
  · intro index dimension
    unfold quiverdb_hnsw_index_dimension
    split <;> simp_all [threw]
  · intro index capacity
    unfold quiverdb_hnsw_index_capacity
    split <;> simp_all [threw]
  · intro index id contains
    unfold quiverdb_hnsw_index_contains
    split <;> simp_all [threw]
  · intro index id vector vector_size
    unfold quiverdb_hnsw_index_get_vector
    split
    · simp_all [threw]
    · split
      · simp
      · split <;> simp_all [threw]
  · intro index filename fs
    unfold quiverdb_hnsw_index_save
    dsimp only
    split <;> simp_all [threw]
  · intro filename fs index
    unfold quiverdb_hnsw_index_load
    split <;> simp_all [threw]

/-! ## Round trip through the flat store -/

section RoundTrip

variable {F : Type}

theorem VectorStore.find_append_new (entries : List (Nat × List F)) (id : Nat) (v : List F)
    (h : ∀ e ∈ entries, e.1 ≠ id) :
    (entries ++ [(id, v)]).find? (fun e => e.1 == id) = some (id, v) := by
  induction entries with
  | nil => simp
  | cons a rest ih =>
    have hb : (a.1 == id) = false := by simpa using h a (List.mem_cons_self _ _)
    have hr : ∀ e ∈ rest, e.1 ≠ id := fun e he => h e (List.mem_cons_of_mem _ he)
    rw [List.cons_append, List.find?_cons, hb]
    exact ih hr

theorem VectorStore.find_replace (entries : List (Nat × List F)) (id : Nat) (v w : List F)
    (h : ∀ e ∈ entries, e.1 ≠ id) :
    ((entries ++ [(id, v)]).map fun e => if e.1 == id then (id, w) else e).find?
      (fun e => e.1 == id) = some (id, w) := by
  induction entries with
  | nil => simp
  | cons a rest ih =>
    have hb : (a.1 == id) = false := by simpa using h a (List.mem_cons_self _ _)
    have hr : ∀ e ∈ rest, e.1 ≠ id := fun e he => h e (List.mem_cons_of_mem _ he)
    rw [List.cons_append, List.map_cons, List.find?_cons]
    simp only [hb, Bool.false_eq_true, if_false]
    exact ih hr

/-- A successful `quiverdb_vector_store_add` on the modelled core appended the record. -/
theorem add_ok_inv (raise : ErrorKind → Thrown) (search : SearchFn F)
    (s : VectorStore F) (id : Nat) (v : List F)
    (hadd : (quiverdb_vector_store_add (specVectorStoreCoreWith raise search) s id v).error =
      QUIVERDB_OK) :
    s.contains id = false ∧ v.length = s.dimension ∧
    (quiverdb_vector_store_add (specVectorStoreCoreWith raise search) s id v).store =
      { s with entries := s.entries ++ [(id, v)] } := by
  have hne : ∀ e : Thrown, catch_arg_alloc e ≠ QUIVERDB_OK := by
    intro e; unfold catch_arg_alloc; split_ifs <;> simp
  simp only [quiverdb_vector_store_add, specVectorStoreCoreWith, VectorStore.add] at hadd ⊢
  by_cases hl : v.length = s.dimension
  · cases hc : s.contains id
    · simp [hl, hc]
    · simp [hl, hc] at hadd
      exact absurd hadd (hne _)
  · simp [hl] at hadd
    exact absurd hadd (hne _)

/-- Reading a stored vector of the modelled core through the wrapper. -/
theorem get_of_stored (raise : ErrorKind → Thrown) (search : SearchFn F)
    (s : VectorStore F) (id : Nat) (x dest : List F) (vector_size : Nat) (hx : s.get id = some x)
    (hlen : x.length = s.dimension) (hsize : s.dimension ≤ vector_size) :
    quiverdb_vector_store_get (specVectorStoreCoreWith raise search) s id dest vector_size =
      (QUIVERDB_OK, x ++ dest.drop s.dimension) := by
  simp [quiverdb_vector_store_get, specVectorStoreCoreWith, hx, Nat.not_lt.mpr hsize, memcpy,
    List.take_of_length_le (le_of_eq hlen)]

/-- C9: on the modelled core, for any carrier of floats (their bit patterns, for
one): after a successful `quiverdb_vector_store_add(id, v)` a
`quiverdb_vector_store_get(id)` into a destination of at least `dimension` floats
returns `QUIVERDB_OK`, the first `dimension` floats of the destination are `v`
and the others are as they were; a following `quiverdb_vector_store_update(id, w)`
with `w` of `dimension` floats succeeds and the same get then yields `w`. -/
theorem vector_store_round_trip (raise : ErrorKind → Thrown) (search : SearchFn F)
    (s : VectorStore F) (id : Nat) (v w dest : List F) (vector_size : Nat)
    (hw : w.length = s.dimension)
    (hadd : (quiverdb_vector_store_add (specVectorStoreCoreWith raise search) s id v).error =
      QUIVERDB_OK)
    (hsize : s.dimension ≤ vector_size) (hdest : vector_size ≤ dest.length) :
    (quiverdb_vector_store_get (specVectorStoreCoreWith raise search)
      (quiverdb_vector_store_add (specVectorStoreCoreWith raise search) s id v).store id dest
      vector_size) = (QUIVERDB_OK, v ++ dest.drop s.dimension) ∧
    (v ++ dest.drop s.dimension).length = dest.length ∧
    (v ++ dest.drop s.dimension).take s.dimension = v ∧
    (quiverdb_vector_store_update (specVectorStoreCoreWith raise search)
      (quiverdb_vector_store_add (specVectorStoreCoreWith raise search) s id v).store id
      w).error = QUIVERDB_OK ∧
    (quiverdb_vector_store_get (specVectorStoreCoreWith raise search)
      (quiverdb_vector_store_update (specVectorStoreCoreWith raise search)
        (quiverdb_vector_store_add (specVectorStoreCoreWith raise search) s id v).store id
        w).store id dest vector_size) = (QUIVERDB_OK, w ++ dest.drop s.dimension) ∧
    (w ++ dest.drop s.dimension).take s.dimension = w := by
  obtain ⟨hc, hv, hs1⟩ := add_ok_inv raise search s id v hadd
  have habs : ∀ e ∈ s.entries, e.1 ≠ id := (VectorStore.contains_eq_false_iff s id).mp hc
  have hc1 : VectorStore.contains { s with entries := s.entries ++ [(id, v)] } id = true := by
    simp [VectorStore.contains]
  have hupd : quiverdb_vector_store_update (specVectorStoreCoreWith raise search)
      { s with entries := s.entries ++ [(id, v)] } id w =
      { error := QUIVERDB_OK,
        store := { s with entries :=
          (s.entries ++ [(id, v)]).map fun e => if e.1 == id then (id, w) else e },
        out := () } := by
    simp only [quiverdb_vector_store_update, specVectorStoreCoreWith, VectorStore.update, hc1,
      hw]
    simp
  rw [hs1, hupd]
  refine ⟨?_, ?_, List.take_left' hv, rfl, ?_, List.take_left' hw⟩
  · refine get_of_stored raise search _ id v dest vector_size ?_ hv hsize
    show Option.map Prod.snd (List.find? _ (s.entries ++ [(id, v)])) = some v
    rw [VectorStore.find_append_new s.entries id v habs]
    rfl
  · simp only [List.length_append, List.length_drop]
    omega
  · refine get_of_stored raise search _ id w dest vector_size ?_ hw hsize
    show Option.map Prod.snd (List.find? _ (List.map _ (s.entries ++ [(id, v)]))) = some w
    rw [VectorStore.find_replace s.entries id v w habs]
    rfl

end RoundTrip

/-- Witness of C9: id 2 with `[1, 2, 3, 4]`, then `[5, 6, 7, 8]`, read back into a
destination of five floats. -/
theorem vector_store_round_trip_witness :
    ([5, 6, 7, 8] : List ℚ).length = store_with_id_1.dimension ∧
    (quiverdb_vector_store_add (specVectorStoreCore raise_std no_sqrt) store_with_id_1 2
      [1, 2, 3, 4]).error = QUIVERDB_OK ∧
    store_with_id_1.dimension ≤ 5 ∧ 5 ≤ ([9, 9, 9, 9, 9] : List ℚ).length ∧
    quiverdb_vector_store_get (specVectorStoreCore raise_std no_sqrt)
      (quiverdb_vector_store_add (specVectorStoreCore raise_std no_sqrt) store_with_id_1 2
        [1, 2, 3, 4]).store 2 [9, 9, 9, 9, 9] 5 = (QUIVERDB_OK, [1, 2, 3, 4, 9]) ∧
    quiverdb_vector_store_get (specVectorStoreCore raise_std no_sqrt)
      (quiverdb_vector_store_update (specVectorStoreCore raise_std no_sqrt)
        (quiverdb_vector_store_add (specVectorStoreCore raise_std no_sqrt) store_with_id_1 2
          [1, 2, 3, 4]).store 2 [5, 6, 7, 8]).store 2 [9, 9, 9, 9, 9] 5 =
      (QUIVERDB_OK, [5, 6, 7, 8, 9]) :=
  ⟨rfl, rfl, by decide, by decide,
    (vector_store_round_trip raise_std (VectorStore.search no_sqrt) store_with_id_1 2 [1, 2, 3, 4] [5, 6, 7, 8]
      [9, 9, 9, 9, 9] 5 rfl rfl (by decide) (by decide)).1,
    (vector_store_round_trip raise_std (VectorStore.search no_sqrt) store_with_id_1 2 [1, 2, 3, 4] [5, 6, 7, 8]
      [9, 9, 9, 9, 9] 5 rfl rfl (by decide) (by decide)).2.2.2.2.1⟩

/-! ## Search through the flat store -/

section Search

variable {F : Type}

/-- The copy loop overwrites the entries from index `i` on with the core's results
and leaves the others, when they fit. -/
theorem copy_results_eq (search_results : List (QuiverDBSearchResult F)) :
    ∀ (i : Nat) (results : List (QuiverDBSearchResult F)),
      i + search_results.length ≤ results.length →
      copy_results search_results i results =
        results.take i ++ search_results ++ results.drop (i + search_results.length) := by
  induction search_results with
  | nil => intro i results _; simp [copy_results]
  | cons r rest ih =>
    intro i results h
    simp only [List.length_cons] at h
    have hi : i < results.length := by omega
    have hlen : (results.take i ++ [r]).length = i + 1 := by
      simp [List.length_take_of_le (le_of_lt hi)]
    have hset : results.set i { id := r.id, distance := r.distance } =
        (results.take i ++ [r]) ++ results.drop (i + 1) := by
      rw [List.set_eq_take_cons_drop _ hi]; simp
    rw [copy_results, ih (i + 1) _ (by simp; omega), hset, List.take_left' hlen]
    have hdrop : List.drop (i + 1 + rest.length) (results.take i ++ [r] ++ results.drop (i + 1)) =
        results.drop (i + (rest.length + 1)) := by
      rw [List.drop_append_eq_append_drop, List.drop_eq_nil_of_le (by rw [hlen]; omega), hlen,
        List.drop_drop]
      simp only [List.nil_append]
      congr 1
      omega
    rw [hdrop]
    simp

variable [LinearOrderedField F]

/-- The order of search results is total. -/
theorem result_le_total (a b : QuiverDBSearchResult F) : result_le a b ∨ result_le b a := by
  unfold result_le
  rcases lt_trichotomy a.distance b.distance with h | h | h
  · exact Or.inl (Or.inl h)
  · rcases le_total a.id b.id with hi | hi
    · exact Or.inl (Or.inr ⟨h, hi⟩)
    · exact Or.inr (Or.inr ⟨h.symm, hi⟩)
  · exact Or.inr (Or.inl h)

/-- The order of search results is transitive. -/
theorem result_le_trans {a b c : QuiverDBSearchResult F} (hab : result_le a b)
    (hbc : result_le b c) : result_le a c := by
  unfold result_le at *
  rcases hab with h1 | ⟨h1, h1'⟩ <;> rcases hbc with h2 | ⟨h2, h2'⟩
  · exact Or.inl (lt_trans h1 h2)
  · exact Or.inl (h2 ▸ h1)
  · exact Or.inl (h1 ▸ h2)
  · exact Or.inr ⟨h1.trans h2, le_trans h1' h2'⟩

/-- Insertion sort puts any list of results in order. -/
theorem sorted_scored (l : List (QuiverDBSearchResult F)) :
    (l.insertionSort result_le).Pairwise result_le := by
  haveI : IsTotal (QuiverDBSearchResult F) result_le := ⟨result_le_total⟩
  haveI : IsTrans (QuiverDBSearchResult F) result_le := ⟨fun _ _ _ => result_le_trans⟩
  exact List.sorted_insertionSort result_le l

/-- C10: on the modelled core, for a query of the store's dimension and
`k ≤ results_size`, `quiverdb_vector_store_search` returns `QUIVERDB_OK` and
writes the brute-force answer `top` at the front of the destination, the entries
behind it staying as they were: `top` has `min k size` entries, it is in
ascending order of score with ties broken by ascending id, and together with a
remainder `rest` it makes up exactly the stored records, each with its score as
distance, every entry of `top` coming before every entry of `rest` in that
order. -/
theorem vector_store_search_reference (raise : ErrorKind → Thrown) (sqrt : F → F)
    (s : VectorStore F) (query : List F) (k : Nat) (results : List (QuiverDBSearchResult F))
    (results_size : Nat) (hq : query.length = s.dimension) (hk : k ≤ results_size)
    (hres : results_size ≤ results.length) :
    ∃ top rest : List (QuiverDBSearchResult F),
      quiverdb_vector_store_search (specVectorStoreCore raise sqrt) s query k results
        results_size = (QUIVERDB_OK, top ++ results.drop top.length) ∧
      top.length = min k s.size ∧
      List.Perm (top ++ rest)
        (s.entries.map fun e => { id := e.1, distance := score sqrt s.metric query e.2 }) ∧
      top.Pairwise result_le ∧
      ∀ a ∈ top, ∀ b ∈ rest, result_le a b := by
  have hsorted := sorted_scored (s.scored sqrt query)
  have hlen : (((s.scored sqrt query).insertionSort result_le).take k).length = min k s.size := by
    simp [List.length_insertionSort, VectorStore.scored, VectorStore.size]
  refine ⟨((s.scored sqrt query).insertionSort result_le).take k,
    ((s.scored sqrt query).insertionSort result_le).drop k, ?_, hlen, ?_, ?_, ?_⟩
  · have hfit : 0 + (((s.scored sqrt query).insertionSort result_le).take k).length ≤
        results.length := by
      rw [hlen]; omega
    simp only [quiverdb_vector_store_search, specVectorStoreCore, specVectorStoreCoreWith,
      VectorStore.search, Nat.not_lt.mpr hk, hq]
    simp [copy_results_eq _ 0 results hfit]
  · rw [List.take_append_drop]
    exact List.perm_insertionSort result_le _
  · exact hsorted.sublist (List.take_sublist _ _)
  · rw [← List.take_append_drop k ((s.scored sqrt query).insertionSort result_le)] at hsorted
    exact (List.pairwise_append.mp hsorted).2.2


end Search

/-- Witness of C10, the spec's scenario: dimension 4, L2, records
`(1, [0,0,0,0])`, `(2, [1,0,0,0])`, `(3, [2,0,0,0])`; searching `[0,0,0,0]` with
`k = 2` writes `(1, 0)` and `(2, 1)` and leaves the third entry alone. -/
theorem vector_store_search_reference_witness :
    ([0, 0, 0, 0] : List ℚ).length = store_three.dimension ∧ 2 ≤ 3 ∧ 3 ≤ dest_three.length ∧
    (∃ top rest : List (QuiverDBSearchResult ℚ),
      quiverdb_vector_store_search (specVectorStoreCore raise_std no_sqrt) store_three
        [0, 0, 0, 0] 2 dest_three 3 = (QUIVERDB_OK, top ++ dest_three.drop top.length) ∧
      top.length = min 2 store_three.size ∧
      List.Perm (top ++ rest)
        (store_three.entries.map fun e =>
          { id := e.1, distance := score no_sqrt store_three.metric [0, 0, 0, 0] e.2 }) ∧
      top.Pairwise result_le ∧
      ∀ a ∈ top, ∀ b ∈ rest, result_le a b) ∧
    quiverdb_vector_store_search (specVectorStoreCore raise_std no_sqrt) store_three
      [0, 0, 0, 0] 2 dest_three 3 =
      (QUIVERDB_OK,
        [{ id := 1, distance := 0 }, { id := 2, distance := 1 }, { id := 9, distance := 9 }]) := by
  refine ⟨rfl, by decide, by decide,
    vector_store_search_reference raise_std no_sqrt store_three [0, 0, 0, 0] 2 dest_three 3 rfl
      (by decide) (by decide), ?_⟩
  norm_num [quiverdb_vector_store_search, specVectorStoreCore, specVectorStoreCoreWith,
    VectorStore.search, VectorStore.scored, store_three, dest_three, score, l2_score, List.insertionSort,
    List.orderedInsert, result_le, copy_results]

/-! ## Order and number of the search results -/

/-- The copy loop from index 0: the core's results in their order, then the old entries. -/
theorem search_writes_core_results {F : Type}
    (search_results results : List (QuiverDBSearchResult F))
    (h : search_results.length ≤ results.length) :
    copy_results search_results 0 results =
      search_results ++ results.drop search_results.length := by
  have := copy_results_eq search_results 0 results (by omega)
  simpa using this

/-- The index of the scenarios, written out. -/
theorem index_three_eq : index_three =
    { params := { max_elements := 10, M := 16, ef_construction := 200, seed := 42 },
      graph := { dimension := 4, metric := HNSWDistanceMetric.L2,
                 records := [{ id := 1, vector := [0, 0, 0, 0], level := 0 },
                             { id := 2, vector := [1, 0, 0, 0], level := 0 },
                             { id := 3, vector := [2, 0, 0, 0], level := 0 }],
                 adjacency := [(1, 0, []), (2, 0, [1]), (3, 0, [1, 2])],
                 entry_point := some 1 },
      ef_search := 50, rng := 45 } := rfl

/-- C12: on the modelled core, when the store holds fewer than `k` vectors and
`results_size ≥ k`, `quiverdb_vector_store_search` returns `QUIVERDB_OK`, not an
error, and writes exactly the first `size` destination entries: all the stored
records with their scores, fewer than `k`; the entries behind them are as they
were. -/
theorem vector_store_search_more_than_stored {F : Type} [LinearOrderedField F]
    (raise : ErrorKind → Thrown) (sqrt : F → F) (s : VectorStore F) (query : List F) (k : Nat)
    (results : List (QuiverDBSearchResult F)) (results_size : Nat)
    (hq : query.length = s.dimension) (hk : s.size < k) (hsize : k ≤ results_size)
    (hres : results_size ≤ results.length) :
    ∃ found : List (QuiverDBSearchResult F),
      quiverdb_vector_store_search (specVectorStoreCore raise sqrt) s query k results
        results_size = (QUIVERDB_OK, found ++ results.drop s.size) ∧
      found.length = s.size ∧ found.length < k ∧
      List.Perm found
        (s.entries.map fun e => { id := e.1, distance := score sqrt s.metric query e.2 }) := by
  have hlen : ((s.scored sqrt query).insertionSort result_le).length = s.size := by
    simp [List.length_insertionSort, VectorStore.scored, VectorStore.size]
  refine ⟨(s.scored sqrt query).insertionSort result_le, ?_, hlen, by omega,
    List.perm_insertionSort result_le _⟩
  simp only [quiverdb_vector_store_search, specVectorStoreCore, specVectorStoreCoreWith,
    VectorStore.search, Nat.not_lt.mpr hsize, hq]
  simp only [ne_eq, not_true_eq_false, if_false]
  rw [List.take_of_length_le (by omega), search_writes_core_results _ _ (by omega), hlen]

/-- Witness of C12: three stored vectors of dimension 1024 and `k = 5`, as in the
edge-case test. -/
theorem vector_store_search_more_than_stored_witness :
    (List.replicate 1024 (0 : ℚ)).length = store_1024.dimension ∧ store_1024.size < 5 ∧
    5 ≤ 5 ∧ 5 ≤ dest_five.length ∧
    ∃ found : List (QuiverDBSearchResult ℚ),
      quiverdb_vector_store_search (specVectorStoreCore raise_std no_sqrt) store_1024
        (List.replicate 1024 0) 5 dest_five 5 = (QUIVERDB_OK, found ++ dest_five.drop 3) ∧
      found.length = 3 ∧ found.length < 5 ∧
      List.Perm found
        (store_1024.entries.map fun e =>
          { id := e.1, distance := score no_sqrt store_1024.metric (List.replicate 1024 0) e.2 }) :=
  ⟨by rw [List.length_replicate]; rfl, by decide, by decide, by decide,
    vector_store_search_more_than_stored raise_std no_sqrt store_1024 (List.replicate 1024 0) 5
      dest_five 5 (by rw [List.length_replicate]; rfl) (by decide) (by decide) (by decide)⟩

/-! ## The metric of a flat store -/

section MetricRoundTrip

variable {F : Type}

/-- The store a mutating wrapper call leaves is the one the core call leaves. -/
theorem run_store_call_eq {S : Type} (core : VectorStoreCore S F) (store : S)
    (call : StoreCall F) :
    run_store_call core store call =
      match call with
      | StoreCall.add id vector => (core.add store id vector).after
      | StoreCall.update id vector => (core.update store id vector).after
      | StoreCall.remove id => (core.remove store id).after
      | StoreCall.clear => (core.clear store).after := by
  cases call with
  | add id vector =>
    simp only [run_store_call, quiverdb_vector_store_add]
    split <;> rfl
  | update id vector =>
    simp only [run_store_call, quiverdb_vector_store_update]
    split <;> split_ifs <;> rfl
  | remove id =>
    simp only [run_store_call, quiverdb_vector_store_remove]
    split <;> rfl
  | clear =>
    simp only [run_store_call, quiverdb_vector_store_clear]
    split <;> rfl

/-- No mutating call changes the metric of the modelled store. -/
theorem run_store_call_metric (raise : ErrorKind → Thrown) (search : SearchFn F)
    (s : VectorStore F) (call : StoreCall F) :
    (run_store_call (specVectorStoreCoreWith raise search) s call).metric = s.metric := by
  rw [run_store_call_eq]
  cases call with
  | add id vector =>
    simp only [specVectorStoreCoreWith, VectorStore.add]
    split_ifs <;> rfl
  | update id vector =>
    simp only [specVectorStoreCoreWith, VectorStore.update]
    split_ifs <;> rfl
  | remove id =>
    simp only [specVectorStoreCoreWith, VectorStore.remove]
    split_ifs <;> rfl
  | clear => rfl

/-- No sequence of mutating calls changes the metric of the modelled store. -/
theorem run_store_calls_metric (raise : ErrorKind → Thrown) (search : SearchFn F)
    (calls : List (StoreCall F)) :
    ∀ s : VectorStore F,
      (run_store_calls (specVectorStoreCoreWith raise search) s calls).metric = s.metric := by
  induction calls with
  | nil => intro s; rfl
  | cons call rest ih =>
    intro s
    simp only [run_store_calls, List.foldl_cons]
    exact (ih _).trans (run_store_call_metric raise search s call)

/-- C13: for each of the three metrics, `convert_metric_back (convert_metric m) = m`;
so a store created with `m` on the modelled core reports exactly `m` from
`quiverdb_vector_store_metric` after any sequence of add, update, remove and
clear calls through the wrapper. -/
theorem metric_round_trip (metric : QuiverDBDistanceMetric)
    (hm : metric = QUIVERDB_DISTANCE_L2 ∨ metric = QUIVERDB_DISTANCE_COSINE ∨
      metric = QUIVERDB_DISTANCE_DOT) :
    convert_metric_back (convert_metric metric) = metric ∧
    ∀ (F : Type) (raise : ErrorKind → Thrown) (search : SearchFn F) (dimension : Nat)
      (handle : Option (VectorStore F)) (calls : List (StoreCall F))
      (reported : QuiverDBDistanceMetric),
      ∃ store : VectorStore F,
        quiverdb_vector_store_create (specVectorStoreCoreWith raise search) dimension metric
          handle = (QUIVERDB_OK, some store) ∧
        quiverdb_vector_store_metric (specVectorStoreCoreWith raise search)
          (run_store_calls (specVectorStoreCoreWith raise search) store calls) reported =
          (QUIVERDB_OK, metric) := by
  have hback : convert_metric_back (convert_metric metric) = metric := by
    rcases hm with h | h | h <;> subst h <;> decide
  refine ⟨hback, ?_⟩
  intro F raise search dimension handle calls reported
  refine ⟨VectorStore.create dimension (convert_metric metric), rfl, ?_⟩
  have hkeep := run_store_calls_metric raise search calls
    (VectorStore.create dimension (convert_metric metric))
  simp only [quiverdb_vector_store_metric]
  have hcore : (specVectorStoreCoreWith raise search).metric
      (run_store_calls (specVectorStoreCoreWith raise search)
        (VectorStore.create dimension (convert_metric metric)) calls) =
      .ok (convert_metric metric) := by
    show Except.ok _ = _
    rw [hkeep]; rfl
  rw [hcore]
  show (QUIVERDB_OK, convert_metric_back (convert_metric metric)) = _
  rw [hback]
end MetricRoundTrip

/-- Witness of C13: Cosine, dimension 4, and five mutating calls. -/
theorem metric_round_trip_witness :
    (QUIVERDB_DISTANCE_COSINE = QUIVERDB_DISTANCE_L2 ∨
      QUIVERDB_DISTANCE_COSINE = QUIVERDB_DISTANCE_COSINE ∨
      QUIVERDB_DISTANCE_COSINE = QUIVERDB_DISTANCE_DOT) ∧
    convert_metric_back (convert_metric QUIVERDB_DISTANCE_COSINE) = QUIVERDB_DISTANCE_COSINE ∧
    ∃ store : VectorStore ℚ,
      quiverdb_vector_store_create
        (specVectorStoreCoreWith raise_std (VectorStore.search no_sqrt)) 4 QUIVERDB_DISTANCE_COSINE none = (QUIVERDB_OK, some store) ∧
      quiverdb_vector_store_metric
        (specVectorStoreCoreWith raise_std (VectorStore.search no_sqrt))
        (run_store_calls (specVectorStoreCoreWith raise_std (VectorStore.search no_sqrt)) store
          [StoreCall.add 1 [0, 0, 0, 0], StoreCall.update 1 [1, 0, 0, 0], StoreCall.remove 1,
            StoreCall.add 2 [2, 0, 0, 0], StoreCall.clear]) QUIVERDB_DISTANCE_L2 =
        (QUIVERDB_OK, QUIVERDB_DISTANCE_COSINE) :=
  ⟨Or.inr (Or.inl rfl), (metric_round_trip QUIVERDB_DISTANCE_COSINE (Or.inr (Or.inl rfl))).1,
    (metric_round_trip QUIVERDB_DISTANCE_COSINE (Or.inr (Or.inl rfl))).2 ℚ raise_std
      (VectorStore.search no_sqrt) 4 none _ QUIVERDB_DISTANCE_L2⟩

/-! ## Capacity and duplicates of the index -/

section HNSWCapacity

variable {F : Type} [LinearOrderedField F]

/-- No handler of `quiverdb_hnsw_index_add` yields `QUIVERDB_OK`. -/
theorem hnsw_add_catch_ne_ok (e : Thrown) : hnsw_add_catch e ≠ QUIVERDB_OK := by
  unfold hnsw_add_catch
  split_ifs <;> simp

/-- A successful `quiverdb_hnsw_index_add` on the modelled core stored one more
record, under a new id, and kept the parameters. -/
theorem hnsw_add_ok_inv (raise : ErrorKind → Thrown) (ch : HNSWChoices F) (sqrt : F → F)
    (idx : HNSWIndex F) (id : Nat) (vector : List F)
    (h : (quiverdb_hnsw_index_add (specHNSWIndexCore raise ch sqrt) idx id vector).error =
      QUIVERDB_OK) :
    (quiverdb_hnsw_index_add (specHNSWIndexCore raise ch sqrt) idx id vector).store.size =
      idx.size + 1 ∧
    (quiverdb_hnsw_index_add (specHNSWIndexCore raise ch sqrt) idx id vector).store.params =
      idx.params ∧
    idx.contains id = false := by
  simp only [quiverdb_hnsw_index_add, specHNSWIndexCore, HNSWIndex.add] at h ⊢
  split_ifs at h ⊢ with h1 h2 h3
  · exact absurd h (hnsw_add_catch_ne_ok _)
  · exact absurd h (hnsw_add_catch_ne_ok _)
  · exact absurd h (hnsw_add_catch_ne_ok _)
  · refine ⟨?_, rfl, by simpa using h2⟩
    simp [HNSWIndex.size]

/-- Successful adds on the modelled core each store one record. -/
theorem hnsw_add_all_inv (raise : ErrorKind → Thrown) (ch : HNSWChoices F) (sqrt : F → F)
    (items : List (Nat × List F)) :
    ∀ idx after : HNSWIndex F,
      hnsw_add_all (specHNSWIndexCore raise ch sqrt) idx items = some after →
      after.size = idx.size + items.length ∧ after.params = idx.params := by
  induction items with
  | nil =>
    intro idx after h
    simp only [hnsw_add_all, Option.some.injEq] at h
    subst h
    exact ⟨rfl, rfl⟩
  | cons item rest ih =>
    intro idx after h
    simp only [hnsw_add_all] at h
    split_ifs at h with hok
    obtain ⟨hsize, hparams, -⟩ := hnsw_add_ok_inv raise ch sqrt idx item.1 item.2 hok
    obtain ⟨h1, h2⟩ := ih _ after h
    refine ⟨?_, h2.trans hparams⟩
    rw [h1, hsize, List.length_cons]
    omega

/-- C14: on the modelled core, raising `IndexFull` as an exception the handler of
`quiverdb_hnsw_index_add` takes for a full index: after an index is created with
`max_elements = N` and `N` adds have succeeded, the next add returns
`QUIVERDB_INDEX_FULL`, leaves the index as it is, and `quiverdb_hnsw_index_size`
still reports `N`. -/
theorem hnsw_index_full_after_capacity (raise : ErrorKind → Thrown) (ch : HNSWChoices F)
    (sqrt : F → F) (dimension : Nat) (metric : QuiverDBDistanceMetric)
    (N M ef_construction seed : Nat) (handle : Option (HNSWIndex F))
    (created full : HNSWIndex F) (items : List (Nat × List F)) (id : Nat) (vector : List F)
    (size : Nat)
    (hfull : hnsw_add_catch (raise ErrorKind.IndexFull) = QUIVERDB_INDEX_FULL)
    (hcreate :
      quiverdb_hnsw_index_create (specHNSWIndexCore raise ch sqrt) dimension metric N handle =
        (QUIVERDB_OK, some created) ∨
      quiverdb_hnsw_index_create_with_params (specHNSWIndexCore raise ch sqrt) dimension metric
        N M ef_construction seed handle = (QUIVERDB_OK, some created))
    (hcount : items.length = N)
    (hadds : hnsw_add_all (specHNSWIndexCore raise ch sqrt) created items = some full) :
    quiverdb_hnsw_index_add (specHNSWIndexCore raise ch sqrt) full id vector =
      { error := QUIVERDB_INDEX_FULL, store := full, out := () } ∧
    quiverdb_hnsw_index_size (specHNSWIndexCore raise ch sqrt) full size = (QUIVERDB_OK, N) := by
  have hcreated : created.size = 0 ∧ created.params.max_elements = N := by
    rcases hcreate with h | h
    · simp only [quiverdb_hnsw_index_create, specHNSWIndexCore, Prod.mk.injEq,
        Option.some.injEq, true_and] at h
      subst h
      exact ⟨rfl, rfl⟩
    · simp only [quiverdb_hnsw_index_create_with_params, specHNSWIndexCore, Prod.mk.injEq,
        Option.some.injEq, true_and] at h
      subst h
      exact ⟨rfl, rfl⟩
  obtain ⟨hsize, hparams⟩ := hnsw_add_all_inv raise ch sqrt items created full hadds
  have hN : full.size = N := by rw [hsize, hcreated.1, hcount]; omega
  have hmax : full.params.max_elements = N := by rw [hparams]; exact hcreated.2
  constructor
  · simp [quiverdb_hnsw_index_add, specHNSWIndexCore, HNSWIndex.add, hN, hmax, hfull]
  · simp [quiverdb_hnsw_index_size, specHNSWIndexCore, hN]

/-- C15: on the modelled core, raising `DuplicateId` as an exception the handler of
`quiverdb_hnsw_index_add` takes for a duplicate: on an index that is not full and
already holds `id`, the add returns `QUIVERDB_DUPLICATE_ID` and the index behind
the handle (size, stored vectors, adjacency, entry point) is the index as it
was. -/
theorem hnsw_index_add_duplicate (raise : ErrorKind → Thrown) (ch : HNSWChoices F)
    (sqrt : F → F) (idx : HNSWIndex F) (id : Nat) (vector : List F)
    (hdup : hnsw_add_catch (raise ErrorKind.DuplicateId) = QUIVERDB_DUPLICATE_ID)
    (hroom : idx.size ≠ idx.params.max_elements) (hhas : idx.contains id = true) :
    quiverdb_hnsw_index_add (specHNSWIndexCore raise ch sqrt) idx id vector =
      { error := QUIVERDB_DUPLICATE_ID, store := idx, out := () } := by
  simp [quiverdb_hnsw_index_add, specHNSWIndexCore, HNSWIndex.add, hroom, hhas, hdup]

end HNSWCapacity

/-- Witness of C14: `max_elements = 2`; after two successful adds the third fails
with `QUIVERDB_INDEX_FULL` and the size is still 2. -/
theorem hnsw_index_full_after_capacity_witness :
    hnsw_add_catch (raise_std ErrorKind.IndexFull) = QUIVERDB_INDEX_FULL ∧
    quiverdb_hnsw_index_create scenario_hnsw_core 4 QUIVERDB_DISTANCE_L2 2 none =
      (QUIVERDB_OK, some (HNSWIndex.create exhaustive_choices 4 HNSWDistanceMetric.L2 2)) ∧
    hnsw_add_all scenario_hnsw_core (HNSWIndex.create exhaustive_choices 4 HNSWDistanceMetric.L2 2)
      [(1, [0, 0, 0, 0]), (2, [1, 0, 0, 0])] = some index_full_two ∧
    quiverdb_hnsw_index_add scenario_hnsw_core index_full_two 3 [2, 0, 0, 0] =
      { error := QUIVERDB_INDEX_FULL, store := index_full_two, out := () } ∧
    quiverdb_hnsw_index_size scenario_hnsw_core index_full_two 0 = (QUIVERDB_OK, 2) :=
  ⟨by decide, rfl, rfl,
    hnsw_index_full_after_capacity raise_std exhaustive_choices no_sqrt 4 QUIVERDB_DISTANCE_L2
      2 0 0 0 none (HNSWIndex.create exhaustive_choices 4 HNSWDistanceMetric.L2 2)
      index_full_two [(1, [0, 0, 0, 0]), (2, [1, 0, 0, 0])] 3 [2, 0, 0, 0] 0 (by decide)
      (Or.inl rfl) rfl rfl⟩

/-- Witness of C15: id 2 again on the index that holds ids 1, 2, 3 of capacity 10. -/
theorem hnsw_index_add_duplicate_witness :
    hnsw_add_catch (raise_std ErrorKind.DuplicateId) = QUIVERDB_DUPLICATE_ID ∧
    index_three.size ≠ index_three.params.max_elements ∧ index_three.contains 2 = true ∧
    quiverdb_hnsw_index_add scenario_hnsw_core index_three 2 [5, 5, 5, 5] =
      { error := QUIVERDB_DUPLICATE_ID, store := index_three, out := () } :=
  ⟨by decide, by decide, by decide,
    hnsw_index_add_duplicate raise_std exhaustive_choices no_sqrt index_three 2 [5, 5, 5, 5]
      (by decide) (by decide) (by decide)⟩

/-! ## Lookup and persistence of the index: what the wrapper makes of the core's exceptions -/

section HNSWErrors

variable {I F FS : Type}

/-- C16: when the index has dimension `d`, the destination has room for
`vector_size ≥ d` floats and the core reports the id absent by the runtime error
mentioning "not found" that the handler of `quiverdb_hnsw_index_get_vector` looks
for, the call returns `QUIVERDB_ID_NOT_FOUND` and the destination is as it
was. -/
theorem hnsw_index_get_vector_absent (core : HNSWIndexCore I F FS) (index : I) (id d : Nat)
    (vector : List F) (vector_size : Nat) (e : Thrown)
    (hd : core.dimension index = .ok d) (hsize : d ≤ vector_size)
    (habsent : core.get_vector index id = .error e)
    (hclass : e.is_runtime_error = true) (hwhat : strstr e.what "not found" = true) :
    quiverdb_hnsw_index_get_vector core index id vector vector_size =
      (QUIVERDB_ID_NOT_FOUND, vector) := by
  simp [quiverdb_hnsw_index_get_vector, hd, Nat.not_lt.mpr hsize, habsent,
    hnsw_get_vector_catch, hclass, hwhat]

/-- C17: for every core, file name and file system, when the core's `load` ends
with the `std::ios_base::failure` by which a missing, truncated or corrupted file
is reported, `quiverdb_hnsw_index_load` returns `QUIVERDB_FILE_ERROR` and the index
handle keeps its previous content; and, separately, for every core, index, file
name and file system, when the core's `save` ends with such a failure,
`quiverdb_hnsw_index_save` returns `QUIVERDB_FILE_ERROR`. -/
theorem hnsw_index_file_error :
    (∀ (I F FS : Type) (core : HNSWIndexCore I F FS) (filename : String) (fs : FS)
      (handle : Option I) (e : Thrown),
      core.load filename fs = .error e → e.is_ios_failure = true →
      quiverdb_hnsw_index_load core filename fs handle = (QUIVERDB_FILE_ERROR, handle)) ∧
    (∀ (I F FS : Type) (core : HNSWIndexCore I F FS) (index : I) (filename : String) (fs : FS)
      (e : Thrown),
      (core.save index filename fs).result = .error e → e.is_ios_failure = true →
      (quiverdb_hnsw_index_save core index filename fs).error = QUIVERDB_FILE_ERROR) := by
  constructor
  · intro I F FS core filename fs handle e hload hio
    simp [quiverdb_hnsw_index_load, hload, hnsw_load_catch, hio]
  · intro I F FS core index filename fs e hsave hio
    simp [quiverdb_hnsw_index_save, hsave, hnsw_save_catch, hio]

/-- C18: when the core's `load` refuses the file by the `std::invalid_argument`
with which an unsupported version is reported, `quiverdb_hnsw_index_load` returns
`QUIVERDB_INVALID_ARGUMENT` and the index handle keeps its previous content: no
index is built from the file. -/
theorem hnsw_index_load_version_mismatch (core : HNSWIndexCore I F FS) (filename : String)
    (fs : FS) (handle : Option I) (e : Thrown)
    (hload : core.load filename fs = .error e) (hclass : e.is_invalid_argument = true) :
    quiverdb_hnsw_index_load core filename fs handle = (QUIVERDB_INVALID_ARGUMENT, handle) := by
  have hio : e.is_ios_failure = false := by
    simp only [Thrown.is_invalid_argument, beq_iff_eq] at hclass
    simp [Thrown.is_ios_failure, hclass]
  simp [quiverdb_hnsw_index_load, hload, hnsw_load_catch, hio, hclass]

end HNSWErrors

/-- Witness of C16: id 9999 on the modelled index that holds ids 1, 2, 3. -/
theorem hnsw_index_get_vector_absent_witness :
    scenario_hnsw_core.dimension index_three = .ok 4 ∧ 4 ≤ 4 ∧
    scenario_hnsw_core.get_vector index_three 9999 = .error (raise_std ErrorKind.IdNotFound) ∧
    (raise_std ErrorKind.IdNotFound).is_runtime_error = true ∧
    strstr (raise_std ErrorKind.IdNotFound).what "not found" = true ∧
    quiverdb_hnsw_index_get_vector scenario_hnsw_core index_three 9999 [7, 7, 7, 7] 4 =
      (QUIVERDB_ID_NOT_FOUND, [7, 7, 7, 7]) :=
  ⟨rfl, le_refl 4, rfl, by decide, by decide,
    hnsw_index_get_vector_absent scenario_hnsw_core index_three 9999 4 [7, 7, 7, 7] 4
      (raise_std ErrorKind.IdNotFound) rfl (le_refl 4) rfl (by decide) (by decide)⟩

/-- Witness of C17: on the modelled core, a missing file on a file system where
every path can be written, a missing file and a damaged file on the file system
of the scenarios, and a path that cannot be written. -/
theorem hnsw_index_file_error_witness :
    scenario_hnsw_core.load "missing.bin" blank_fs = .error (raise_std ErrorKind.FileError) ∧
    scenario_hnsw_core.load "missing.bin" scenario_fs = .error (raise_std ErrorKind.FileError) ∧
    scenario_hnsw_core.load "damaged.bin" scenario_fs = .error (raise_std ErrorKind.FileError) ∧
    (scenario_hnsw_core.save index_three "/readonly/index.bin" scenario_fs).result =
      .error (raise_std ErrorKind.FileError) ∧
    (raise_std ErrorKind.FileError).is_ios_failure = true ∧
    quiverdb_hnsw_index_load scenario_hnsw_core "missing.bin" blank_fs none =
      (QUIVERDB_FILE_ERROR, none) ∧
    quiverdb_hnsw_index_load scenario_hnsw_core "missing.bin" scenario_fs none =
      (QUIVERDB_FILE_ERROR, none) ∧
    quiverdb_hnsw_index_load scenario_hnsw_core "damaged.bin" scenario_fs (some index_three) =
      (QUIVERDB_FILE_ERROR, some index_three) ∧
    (quiverdb_hnsw_index_save scenario_hnsw_core index_three "/readonly/index.bin"
      scenario_fs).error = QUIVERDB_FILE_ERROR :=
  ⟨rfl, rfl, rfl, rfl, by decide,
    hnsw_index_file_error.1 _ _ _ scenario_hnsw_core "missing.bin" blank_fs none _ rfl
      (by decide),
    hnsw_index_file_error.1 _ _ _ scenario_hnsw_core "missing.bin" scenario_fs none _ rfl
      (by decide),
    hnsw_index_file_error.1 _ _ _ scenario_hnsw_core "damaged.bin" scenario_fs
      (some index_three) _ rfl (by decide),
    hnsw_index_file_error.2 _ _ _ scenario_hnsw_core index_three "/readonly/index.bin"
      scenario_fs _ rfl (by decide)⟩

/-- Witness of C18: on the modelled core, a well-formed file of format version 2
while the loader supports version 1. -/
theorem hnsw_index_load_version_mismatch_witness :
    scenario_hnsw_core.load "future.bin" scenario_fs =
      .error (raise_std ErrorKind.InvalidArgument) ∧
    (raise_std ErrorKind.InvalidArgument).is_invalid_argument = true ∧
    quiverdb_hnsw_index_load scenario_hnsw_core "future.bin" scenario_fs none =
      (QUIVERDB_INVALID_ARGUMENT, none) :=
  ⟨rfl, by decide,
    hnsw_index_load_version_mismatch scenario_hnsw_core "future.bin" scenario_fs none _ rfl
      (by decide)⟩

/-! ## Persistence and `ef_search` of the modelled index -/

section HNSWPersistence

variable {F : Type} [LinearOrderedField F]

/-- A `quiverdb_hnsw_index_set_ef_search` that returns `QUIVERDB_OK` on the modelled
core was given an accepted breadth. -/
theorem hnsw_set_ef_search_accepted (raise : ErrorKind → Thrown) (ch : HNSWChoices F)
    (sqrt : F → F) (idx : HNSWIndex F) (n : Nat)
    (h : (quiverdb_hnsw_index_set_ef_search (specHNSWIndexCore raise ch sqrt) idx n).error =
      QUIVERDB_OK) :
    ch.accepts_ef_search n = true := by
  cases hacc : ch.accepts_ef_search n with
  | true => rfl
  | false =>
    exfalso
    simp only [quiverdb_hnsw_index_set_ef_search, specHNSWIndexCore, HNSWIndex.set_ef_search,
      hacc, Bool.false_eq_true, if_false] at h
    split_ifs at h

/-- A successful `quiverdb_hnsw_index_set_ef_search` on the modelled core changed
`ef_search` and nothing else. -/
theorem hnsw_set_ef_search_ok_inv (raise : ErrorKind → Thrown) (ch : HNSWChoices F)
    (sqrt : F → F) (idx : HNSWIndex F) (n : Nat)
    (h : (quiverdb_hnsw_index_set_ef_search (specHNSWIndexCore raise ch sqrt) idx n).error =
      QUIVERDB_OK) :
    (quiverdb_hnsw_index_set_ef_search (specHNSWIndexCore raise ch sqrt) idx n).store =
      { idx with ef_search := n } := by
  simp [quiverdb_hnsw_index_set_ef_search, specHNSWIndexCore, HNSWIndex.set_ef_search,
    hnsw_set_ef_search_accepted raise ch sqrt idx n h]

/-- C20: on the modelled core, whenever `quiverdb_hnsw_index_set_ef_search(index, n)`
returns `QUIVERDB_OK`, a following `quiverdb_hnsw_index_get_ef_search` returns
`QUIVERDB_OK` with value `n`, and size, dimension and capacity are reported as
before the set. -/
theorem hnsw_ef_search_round_trip (raise : ErrorKind → Thrown) (ch : HNSWChoices F)
    (sqrt : F → F) (idx : HNSWIndex F) (n ef_search size dimension capacity : Nat)
    (hset : (quiverdb_hnsw_index_set_ef_search (specHNSWIndexCore raise ch sqrt) idx n).error =
      QUIVERDB_OK) :
    quiverdb_hnsw_index_get_ef_search (specHNSWIndexCore raise ch sqrt)
      (quiverdb_hnsw_index_set_ef_search (specHNSWIndexCore raise ch sqrt) idx n).store
      ef_search = (QUIVERDB_OK, n) ∧
    quiverdb_hnsw_index_size (specHNSWIndexCore raise ch sqrt)
      (quiverdb_hnsw_index_set_ef_search (specHNSWIndexCore raise ch sqrt) idx n).store size =
      quiverdb_hnsw_index_size (specHNSWIndexCore raise ch sqrt) idx size ∧
    quiverdb_hnsw_index_dimension (specHNSWIndexCore raise ch sqrt)
      (quiverdb_hnsw_index_set_ef_search (specHNSWIndexCore raise ch sqrt) idx n).store
      dimension = quiverdb_hnsw_index_dimension (specHNSWIndexCore raise ch sqrt) idx dimension ∧
    quiverdb_hnsw_index_capacity (specHNSWIndexCore raise ch sqrt)
      (quiverdb_hnsw_index_set_ef_search (specHNSWIndexCore raise ch sqrt) idx n).store
      capacity = quiverdb_hnsw_index_capacity (specHNSWIndexCore raise ch sqrt) idx capacity := by
  rw [hnsw_set_ef_search_ok_inv raise ch sqrt idx n hset]
  exact ⟨rfl, rfl, rfl, rfl⟩

/-- C19: on the modelled core, after a successful `quiverdb_hnsw_index_save` a
`quiverdb_hnsw_index_load` of the same file returns `QUIVERDB_OK` with an index
that reports the same size and dimension, and under the same `ef_search` (set to
any accepted value on both) `quiverdb_hnsw_index_search` returns the same code
and writes the same destination for every query, `k` and destination. -/
theorem hnsw_save_load_round_trip (raise : ErrorKind → Thrown) (ch : HNSWChoices F)
    (sqrt : F → F) (idx : HNSWIndex F) (path : String) (fs : FileSystem F)
    (handle : Option (HNSWIndex F)) (size dimension : Nat)
    (hsave : (quiverdb_hnsw_index_save (specHNSWIndexCore raise ch sqrt) idx path fs).error =
      QUIVERDB_OK) :
    ∃ loaded : HNSWIndex F,
      quiverdb_hnsw_index_load (specHNSWIndexCore raise ch sqrt) path
        (quiverdb_hnsw_index_save (specHNSWIndexCore raise ch sqrt) idx path fs).store handle =
        (QUIVERDB_OK, some loaded) ∧
      quiverdb_hnsw_index_size (specHNSWIndexCore raise ch sqrt) loaded size =
        quiverdb_hnsw_index_size (specHNSWIndexCore raise ch sqrt) idx size ∧
      quiverdb_hnsw_index_dimension (specHNSWIndexCore raise ch sqrt) loaded dimension =
        quiverdb_hnsw_index_dimension (specHNSWIndexCore raise ch sqrt) idx dimension ∧
      ∀ (ef : Nat) (query : List F) (k : Nat) (results : List (QuiverDBSearchResult F))
        (results_size : Nat),
        (quiverdb_hnsw_index_set_ef_search (specHNSWIndexCore raise ch sqrt) idx ef).error =
          QUIVERDB_OK →
        (quiverdb_hnsw_index_set_ef_search (specHNSWIndexCore raise ch sqrt) loaded ef).error =
          QUIVERDB_OK ∧
        quiverdb_hnsw_index_search (specHNSWIndexCore raise ch sqrt)
          (quiverdb_hnsw_index_set_ef_search (specHNSWIndexCore raise ch sqrt) loaded ef).store
          query k results results_size =
        quiverdb_hnsw_index_search (specHNSWIndexCore raise ch sqrt)
          (quiverdb_hnsw_index_set_ef_search (specHNSWIndexCore raise ch sqrt) idx ef).store
          query k results results_size := by
  have hne : ∀ e : Thrown, hnsw_save_catch e ≠ QUIVERDB_OK := by
    intro e; unfold hnsw_save_catch; split_ifs <;> simp
  have hw : fs.writable path = true := by
    by_contra hw
    simp only [quiverdb_hnsw_index_save, specHNSWIndexCore, HNSWIndex.save, hw] at hsave
    exact hne _ hsave
  refine ⟨{ params := idx.params, graph := idx.graph, ef_search := ch.default_ef_search,
            rng := idx.params.seed }, ?_, rfl, rfl, ?_⟩
  · simp [quiverdb_hnsw_index_save, quiverdb_hnsw_index_load, specHNSWIndexCore,
      HNSWIndex.save, HNSWIndex.load, hw]
  · intro ef query k results results_size hset
    have hacc := hnsw_set_ef_search_accepted raise ch sqrt idx ef hset
    simp [quiverdb_hnsw_index_set_ef_search, quiverdb_hnsw_index_search, specHNSWIndexCore,
      HNSWIndex.set_ef_search, HNSWIndex.search, hacc]

end HNSWPersistence

/-- Witness of C19: the index of the scenarios saved to `index.bin` and loaded
back; both sides searched with `ef_search = 50`. -/
theorem hnsw_save_load_round_trip_witness :
    (quiverdb_hnsw_index_save scenario_hnsw_core index_three "index.bin" scenario_fs).error =
      QUIVERDB_OK ∧
    ∃ loaded : HNSWIndex ℚ,
      quiverdb_hnsw_index_load scenario_hnsw_core "index.bin"
        (quiverdb_hnsw_index_save scenario_hnsw_core index_three "index.bin" scenario_fs).store
        none = (QUIVERDB_OK, some loaded) ∧
      quiverdb_hnsw_index_size scenario_hnsw_core loaded 0 = (QUIVERDB_OK, 3) ∧
      quiverdb_hnsw_index_dimension scenario_hnsw_core loaded 0 = (QUIVERDB_OK, 4) ∧
      quiverdb_hnsw_index_search scenario_hnsw_core
        (quiverdb_hnsw_index_set_ef_search scenario_hnsw_core loaded 50).store [0, 0, 0, 0] 2
        dest_three 3 =
      quiverdb_hnsw_index_search scenario_hnsw_core
        (quiverdb_hnsw_index_set_ef_search scenario_hnsw_core index_three 50).store
        [0, 0, 0, 0] 2 dest_three 3 := by
  obtain ⟨loaded, hload, hsize, hdim, hsearch⟩ :=
    hnsw_save_load_round_trip raise_std exhaustive_choices no_sqrt index_three "index.bin"
      scenario_fs none 0 0 rfl
  exact ⟨rfl, loaded, hload, hsize.trans rfl, hdim.trans rfl,
    (hsearch 50 [0, 0, 0, 0] 2 dest_three 3 rfl).2⟩

/-- Witness of C20: `n = 100` on the empty index, `n = 10, 20, 50` on a populated
one, as in the tests. -/
theorem hnsw_ef_search_round_trip_witness :
    (quiverdb_hnsw_index_set_ef_search scenario_hnsw_core empty_index_128 100).error =
      QUIVERDB_OK ∧
    quiverdb_hnsw_index_get_ef_search scenario_hnsw_core
      (quiverdb_hnsw_index_set_ef_search scenario_hnsw_core empty_index_128 100).store 0 =
      (QUIVERDB_OK, 100) ∧
    quiverdb_hnsw_index_get_ef_search scenario_hnsw_core
      (quiverdb_hnsw_index_set_ef_search scenario_hnsw_core index_three 10).store 0 =
      (QUIVERDB_OK, 10) ∧
    quiverdb_hnsw_index_get_ef_search scenario_hnsw_core
      (quiverdb_hnsw_index_set_ef_search scenario_hnsw_core index_three 20).store 0 =
      (QUIVERDB_OK, 20) ∧
    quiverdb_hnsw_index_get_ef_search scenario_hnsw_core
      (quiverdb_hnsw_index_set_ef_search scenario_hnsw_core index_three 50).store 0 =
      (QUIVERDB_OK, 50) :=
  ⟨rfl,
    (hnsw_ef_search_round_trip raise_std exhaustive_choices no_sqrt empty_index_128 100 0 0 0 0
      rfl).1,
    (hnsw_ef_search_round_trip raise_std exhaustive_choices no_sqrt index_three 10 0 0 0 0
      rfl).1,
    (hnsw_ef_search_round_trip raise_std exhaustive_choices no_sqrt index_three 20 0 0 0 0
      rfl).1,
    (hnsw_ef_search_round_trip raise_std exhaustive_choices no_sqrt index_three 50 0 0 0 0
      rfl).1⟩

/-! ## Behaviour of the wrapper as written -/

section WrapperBehaviour

variable {S I F FS : Type}

/-- C24: for a metric selector outside 0, 1, 2, `convert_metric` and
`convert_hnsw_metric` yield L2; so when the core's constructor succeeds on L2 and
the core reports the metric it was built with, `quiverdb_vector_store_create`
with such a selector returns `QUIVERDB_OK` and `quiverdb_vector_store_metric`
reports `QUIVERDB_DISTANCE_L2` for the store. -/
theorem invalid_selector_falls_back_to_l2 (core : VectorStoreCore S F) (dimension : Nat)
    (metric : QuiverDBDistanceMetric) (handle : Option S) (created : S)
    (reported : QuiverDBDistanceMetric)
    (h0 : metric ≠ QUIVERDB_DISTANCE_L2) (h1 : metric ≠ QUIVERDB_DISTANCE_COSINE)
    (h2 : metric ≠ QUIVERDB_DISTANCE_DOT)
    (hcreate : core.create dimension DistanceMetric.L2 = .ok created)
    (hmetric : core.metric created = .ok DistanceMetric.L2) :
    convert_metric metric = DistanceMetric.L2 ∧
    convert_hnsw_metric metric = HNSWDistanceMetric.L2 ∧
    quiverdb_vector_store_create core dimension metric handle = (QUIVERDB_OK, some created) ∧
    quiverdb_vector_store_metric core created reported =
      (QUIVERDB_OK, QUIVERDB_DISTANCE_L2) := by
  have hc : convert_metric metric = DistanceMetric.L2 := by
    simp [convert_metric, h0, h1, h2]
  refine ⟨hc, by simp [convert_hnsw_metric, h0, h1, h2], ?_, ?_⟩
  · simp [quiverdb_vector_store_create, hc, hcreate]
  · simp [quiverdb_vector_store_metric, hmetric, convert_metric_back]

/-- C25: for every way the core's `add` can end, `quiverdb_vector_store_add` returns
`QUIVERDB_OK` iff the core returns normally, `QUIVERDB_INVALID_ARGUMENT` iff it
throws `std::invalid_argument`, `QUIVERDB_OUT_OF_MEMORY` iff it throws
`std::bad_alloc`, `QUIVERDB_ERROR` iff it throws anything else; it never returns
`QUIVERDB_DUPLICATE_ID`, `QUIVERDB_ID_NOT_FOUND`, `QUIVERDB_INDEX_FULL` or
`QUIVERDB_FILE_ERROR`. -/
theorem vector_store_add_error_codes (core : VectorStoreCore S F) (store : S) (id : Nat)
    (vector : List F) :
    ((quiverdb_vector_store_add core store id vector).error = QUIVERDB_OK ↔
      ∃ u, (core.add store id vector).result = .ok u) ∧
    ((quiverdb_vector_store_add core store id vector).error = QUIVERDB_INVALID_ARGUMENT ↔
      ∃ e, (core.add store id vector).result = .error e ∧ e.cls = ExnClass.invalid_argument) ∧
    ((quiverdb_vector_store_add core store id vector).error = QUIVERDB_OUT_OF_MEMORY ↔
      ∃ e, (core.add store id vector).result = .error e ∧ e.cls = ExnClass.bad_alloc) ∧
    ((quiverdb_vector_store_add core store id vector).error = QUIVERDB_ERROR ↔
      ∃ e, (core.add store id vector).result = .error e ∧
        e.cls ≠ ExnClass.invalid_argument ∧ e.cls ≠ ExnClass.bad_alloc) ∧
    (quiverdb_vector_store_add core store id vector).error ≠ QUIVERDB_DUPLICATE_ID ∧
    (quiverdb_vector_store_add core store id vector).error ≠ QUIVERDB_ID_NOT_FOUND ∧
    (quiverdb_vector_store_add core store id vector).error ≠ QUIVERDB_INDEX_FULL ∧
    (quiverdb_vector_store_add core store id vector).error ≠ QUIVERDB_FILE_ERROR := by
  unfold quiverdb_vector_store_add
  dsimp only
  cases hres : (core.add store id vector).result with
  | ok u => simp
  | error e =>
    obtain ⟨cls, what⟩ := e
    cases cls <;>
      simp [catch_arg_alloc, Thrown.is_invalid_argument, Thrown.is_bad_alloc]

/-- C26: when the core's `add` throws a `std::runtime_error` with message `s`,
`quiverdb_hnsw_index_add` returns `QUIVERDB_DUPLICATE_ID` iff `s` contains
"exists", `QUIVERDB_INDEX_FULL` iff `s` contains "full" and not "exists", and
`QUIVERDB_ERROR` iff `s` contains neither. -/
theorem hnsw_index_add_runtime_error (core : HNSWIndexCore I F FS) (index : I) (id : Nat)
    (vector : List F) (e : Thrown)
    (hthrow : (core.add index id vector).result = .error e)
    (hclass : e.is_runtime_error = true) :
    ((quiverdb_hnsw_index_add core index id vector).error = QUIVERDB_DUPLICATE_ID ↔
      strstr e.what "exists" = true) ∧
    ((quiverdb_hnsw_index_add core index id vector).error = QUIVERDB_INDEX_FULL ↔
      strstr e.what "full" = true ∧ strstr e.what "exists" = false) ∧
    ((quiverdb_hnsw_index_add core index id vector).error = QUIVERDB_ERROR ↔
      strstr e.what "exists" = false ∧ strstr e.what "full" = false) := by
  have hinv : e.is_invalid_argument = false := by
    obtain ⟨cls, what⟩ := e
    cases cls <;> simp_all [Thrown.is_runtime_error, Thrown.is_invalid_argument]
  have herr : (quiverdb_hnsw_index_add core index id vector).error = hnsw_add_catch e := by
    simp [quiverdb_hnsw_index_add, hthrow]
  rw [herr]
  simp only [hnsw_add_catch, hinv, hclass]
  cases h1 : strstr e.what "exists" <;> cases h2 : strstr e.what "full" <;> simp

/-- C27: when `vector_size` is smaller than the dimension, `quiverdb_vector_store_get`
and `quiverdb_hnsw_index_get_vector` return `QUIVERDB_INVALID_ARGUMENT` and the
destination is as it was, for every id and every core: the answer does not depend
on what the lookup would return or throw, so the id is not looked up. -/
theorem get_rejects_small_destination (vs : VectorStoreCore S F) (hnsw : HNSWIndexCore I F FS)
    (store : S) (index : I) (id d_store d_index : Nat) (vector : List F) (vector_size : Nat)
    (hstore : vs.dimension store = .ok d_store) (hindex : hnsw.dimension index = .ok d_index)
    (hsmall_store : vector_size < d_store) (hsmall_index : vector_size < d_index) :
    quiverdb_vector_store_get vs store id vector vector_size =
      (QUIVERDB_INVALID_ARGUMENT, vector) ∧
    quiverdb_hnsw_index_get_vector hnsw index id vector vector_size =
      (QUIVERDB_INVALID_ARGUMENT, vector) := by
  simp [quiverdb_vector_store_get, quiverdb_hnsw_index_get_vector, hstore, hindex, hsmall_store,
    hsmall_index]

/-- C28: when `results_size ≥ k` and the core's search returns `r ≤ k` results, both
search functions return `QUIVERDB_OK`; destination entry `i` is the core's `i`-th
result for `i < r` and what it was before for `i ≥ r`; the array keeps its
length, and `r ≤ results_size`, so every index written is below
`results_size`. -/
theorem search_writes_exactly_core_results (vs : VectorStoreCore S F)
    (hnsw : HNSWIndexCore I F FS) (store : S) (index : I) (query : List F) (k : Nat)
    (results from_store from_index : List (QuiverDBSearchResult F)) (results_size : Nat)
    (hk : k ≤ results_size) (hfit : results_size ≤ results.length)
    (hstore : vs.search store query k = .ok from_store)
    (hindex : hnsw.search index query k = .ok from_index)
    (hstore_k : from_store.length ≤ k) (hindex_k : from_index.length ≤ k) :
    (quiverdb_vector_store_search vs store query k results results_size).1 = QUIVERDB_OK ∧
    (∀ i, i < from_store.length →
      (quiverdb_vector_store_search vs store query k results results_size).2[i]? =
        from_store[i]?) ∧
    (∀ i, from_store.length ≤ i →
      (quiverdb_vector_store_search vs store query k results results_size).2[i]? =
        results[i]?) ∧
    from_store.length ≤ results_size ∧
    (quiverdb_vector_store_search vs store query k results results_size).2.length =
      results.length ∧
    (quiverdb_hnsw_index_search hnsw index query k results results_size).1 = QUIVERDB_OK ∧
    (∀ i, i < from_index.length →
      (quiverdb_hnsw_index_search hnsw index query k results results_size).2[i]? =
        from_index[i]?) ∧
    (∀ i, from_index.length ≤ i →
      (quiverdb_hnsw_index_search hnsw index query k results results_size).2[i]? =
        results[i]?) ∧
    from_index.length ≤ results_size ∧
    (quiverdb_hnsw_index_search hnsw index query k results results_size).2.length =
      results.length := by
  have h1 : quiverdb_vector_store_search vs store query k results results_size =
      (QUIVERDB_OK, from_store ++ results.drop from_store.length) := by
    simp only [quiverdb_vector_store_search, Nat.not_lt.mpr hk, if_false, hstore]
    rw [search_writes_core_results _ _ (by omega)]
  have h2 : quiverdb_hnsw_index_search hnsw index query k results results_size =
      (QUIVERDB_OK, from_index ++ results.drop from_index.length) := by
    simp only [quiverdb_hnsw_index_search, Nat.not_lt.mpr hk, if_false, hindex]
    rw [search_writes_core_results _ _ (by omega)]
  rw [h1, h2]
  refine ⟨rfl, ?_, ?_, by omega, ?_, rfl, ?_, ?_, by omega, ?_⟩
  · intro i hi
    simp [List.getElem?_append_left hi]
  · intro i hi
    rw [List.getElem?_append_right hi, List.getElem?_drop]
    congr 1
    omega
  · simp only [List.length_append, List.length_drop]
    omega
  · intro i hi
    simp [List.getElem?_append_left hi]
  · intro i hi
    rw [List.getElem?_append_right hi, List.getElem?_drop]
    congr 1
    omega
  · simp only [List.length_append, List.length_drop]
    omega

end WrapperBehaviour

/-- Witness of C24: selector 999 and dimension 128 on the modelled core. -/
theorem invalid_selector_falls_back_to_l2_witness :
    (999 : QuiverDBDistanceMetric) ≠ QUIVERDB_DISTANCE_L2 ∧
    (999 : QuiverDBDistanceMetric) ≠ QUIVERDB_DISTANCE_COSINE ∧
    (999 : QuiverDBDistanceMetric) ≠ QUIVERDB_DISTANCE_DOT ∧
    (specVectorStoreCore raise_std no_sqrt).create 128 DistanceMetric.L2 =
      .ok empty_store_128 ∧
    (specVectorStoreCore raise_std no_sqrt).metric empty_store_128 = .ok DistanceMetric.L2 ∧
    convert_metric 999 = DistanceMetric.L2 ∧ convert_hnsw_metric 999 = HNSWDistanceMetric.L2 ∧
    quiverdb_vector_store_create (specVectorStoreCore raise_std no_sqrt) 128 999 none =
      (QUIVERDB_OK, some empty_store_128) ∧
    quiverdb_vector_store_metric (specVectorStoreCore raise_std no_sqrt) empty_store_128 2 =
      (QUIVERDB_OK, QUIVERDB_DISTANCE_L2) :=
  ⟨by decide, by decide, by decide, rfl, rfl,
    invalid_selector_falls_back_to_l2 (specVectorStoreCore raise_std no_sqrt) 128 999 none
      empty_store_128 2 (by decide) (by decide) (by decide) rfl rfl⟩

/-- Witness of C26: a runtime error whose message contains both "exists" and
"full" is reported as `QUIVERDB_DUPLICATE_ID`. -/
theorem hnsw_index_add_runtime_error_witness :
    ((throwing_hnsw_core ℚ
      { cls := ExnClass.runtime_error, what := "entry exists, index full" }).add () 1
      [0, 0, 0, 0]).result =
      .error { cls := ExnClass.runtime_error, what := "entry exists, index full" } ∧
    Thrown.is_runtime_error
      { cls := ExnClass.runtime_error, what := "entry exists, index full" } = true ∧
    strstr "entry exists, index full" "exists" = true ∧
    strstr "entry exists, index full" "full" = true ∧
    (quiverdb_hnsw_index_add
      (throwing_hnsw_core ℚ
        { cls := ExnClass.runtime_error, what := "entry exists, index full" }) () 1
      [0, 0, 0, 0]).error = QUIVERDB_DUPLICATE_ID :=
  ⟨rfl, by decide, by decide, by decide,
    (hnsw_index_add_runtime_error
      (throwing_hnsw_core ℚ
        { cls := ExnClass.runtime_error, what := "entry exists, index full" }) () 1
      [0, 0, 0, 0] _ rfl (by decide)).1.mpr (by decide)⟩

/-- Witness of C27: a destination of three floats for dimension 4; id 1 is held
by the store and by the index. -/
theorem get_rejects_small_destination_witness :
    (specVectorStoreCore raise_std no_sqrt).dimension store_with_id_1 = .ok 4 ∧
    scenario_hnsw_core.dimension index_three = .ok 4 ∧ 3 < 4 ∧
    quiverdb_vector_store_get (specVectorStoreCore raise_std no_sqrt) store_with_id_1 1
      [7, 7, 7] 3 = (QUIVERDB_INVALID_ARGUMENT, [7, 7, 7]) ∧
    quiverdb_hnsw_index_get_vector scenario_hnsw_core index_three 1 [7, 7, 7] 3 =
      (QUIVERDB_INVALID_ARGUMENT, [7, 7, 7]) :=
  ⟨rfl, rfl, by decide,
    get_rejects_small_destination (specVectorStoreCore raise_std no_sqrt) scenario_hnsw_core
      store_with_id_1 index_three 1 4 4 [7, 7, 7] 3 rfl rfl (by decide) (by decide)⟩

/-- The modelled store's answer for `k = 5` in the spec's scenario. -/
theorem scenario_store_search_five :
    (specVectorStoreCore raise_std no_sqrt).search store_three [0, 0, 0, 0] 5 =
      .ok three_results := by
  norm_num [specVectorStoreCore, specVectorStoreCoreWith, VectorStore.search,
    VectorStore.scored, store_three, score, l2_score, List.insertionSort, List.orderedInsert,
    result_le, three_results]

/-- The modelled index's answer for `k = 5` in the same scenario. -/
theorem scenario_index_search_five :
    scenario_hnsw_core.search index_three [0, 0, 0, 0] 5 = .ok three_results := by
  rw [index_three_eq]
  norm_num [scenario_hnsw_core, specHNSWIndexCore, HNSWIndex.search, exhaustive_choices,
    hnsw_score, score, l2_score, List.insertionSort, List.orderedInsert, result_le,
    three_results]

/-- Witness of C28: `k = 5` on three stored records: entries 0 to 2 are the core's
results, entries 3 and 4 keep their content. -/
theorem search_writes_exactly_core_results_witness :
    5 ≤ 5 ∧ 5 ≤ dest_five.length ∧
    (specVectorStoreCore raise_std no_sqrt).search store_three [0, 0, 0, 0] 5 =
      .ok three_results ∧
    scenario_hnsw_core.search index_three [0, 0, 0, 0] 5 = .ok three_results ∧
    three_results.length ≤ 5 ∧
    (quiverdb_vector_store_search (specVectorStoreCore raise_std no_sqrt) store_three
      [0, 0, 0, 0] 5 dest_five 5).2[2]? = some { id := 3, distance := 4 } ∧
    (quiverdb_vector_store_search (specVectorStoreCore raise_std no_sqrt) store_three
      [0, 0, 0, 0] 5 dest_five 5).2[3]? = some { id := 7, distance := 9 } ∧
    (quiverdb_hnsw_index_search scenario_hnsw_core index_three [0, 0, 0, 0] 5 dest_five
      5).2[2]? = some { id := 3, distance := 4 } ∧
    (quiverdb_hnsw_index_search scenario_hnsw_core index_three [0, 0, 0, 0] 5 dest_five
      5).2[4]? = some { id := 7, distance := 9 } := by
  have h := search_writes_exactly_core_results (specVectorStoreCore raise_std no_sqrt)
    scenario_hnsw_core store_three index_three [0, 0, 0, 0] 5 dest_five three_results
    three_results 5 (by decide) (by decide) scenario_store_search_five
    scenario_index_search_five (by decide) (by decide)
  exact ⟨by decide, by decide, scenario_store_search_five, scenario_index_search_five,
    by decide, h.2.1 2 (by decide), h.2.2.1 3 (by decide), h.2.2.2.2.2.2.1 2 (by decide),
    h.2.2.2.2.2.2.2.1 4 (by decide)⟩

/-! ## The Android adapter -/

section JNITheorems

variable {S I F FS : Type}

/-- The conversion loop fills the entries from index `i` on with the Java objects
of the results, when every `NewObject` succeeds and they fit. -/
theorem fill_result_array_eq (env : JNIEnv) (hobj : ∀ i, env.new_object i = true)
    (results : List (QuiverDBSearchResult F)) :
    ∀ (i : Nat) (resultArray : List (Option (JavaSearchResult F))),
      i + results.length ≤ resultArray.length →
      fill_result_array env results i resultArray =
        some (resultArray.take i ++ results.map (fun r => some (java_hit r)) ++
          resultArray.drop (i + results.length)) := by
  induction results with
  | nil => intro i resultArray _; simp [fill_result_array]
  | cons r rest ih =>
    intro i resultArray h
    simp only [List.length_cons] at h
    have hi : i < resultArray.length := by omega
    have hlen : (resultArray.take i ++ [some (java_hit r)]).length = i + 1 := by
      simp [List.length_take_of_le (le_of_lt hi)]
    have hset : resultArray.set i (some { id := jlong_of_uint64 r.id, distance := r.distance }) =
        (resultArray.take i ++ [some (java_hit r)]) ++ resultArray.drop (i + 1) := by
      rw [List.set_eq_take_cons_drop _ hi]; simp [java_hit]
    rw [fill_result_array, hobj i]
    simp only [Bool.not_true, Bool.false_eq_true, if_false]
    rw [ih (i + 1) _ (by simp; omega), hset, List.take_left' hlen]
    have hdrop : List.drop (i + 1 + rest.length)
        (resultArray.take i ++ [some (java_hit r)] ++ resultArray.drop (i + 1)) =
        resultArray.drop (i + (rest.length + 1)) := by
      rw [List.drop_append_eq_append_drop, List.drop_eq_nil_of_le (by rw [hlen]; omega), hlen,
        List.drop_drop]
      simp only [List.nil_append]
      congr 1
      omega
    rw [hdrop]
    simp

/-- In an environment where every JNI call succeeds, `createSearchResultArray`
returns one Java object for each element of its argument, in order. -/
theorem createSearchResultArray_eq (env : JNIEnv) (hclass : env.find_class = true)
    (hmethod : env.get_method_id = true) (harray : ∀ n, env.new_object_array n = true)
    (hobj : ∀ i, env.new_object i = true) (results : List (QuiverDBSearchResult F)) :
    createSearchResultArray env results =
      { value := some (results.map fun r => some (java_hit r)), pending_exception := false,
        store := (), log := [] } := by
  simp only [createSearchResultArray, hclass, hmethod, harray, Bool.not_true,
    Bool.false_eq_true, if_false]
  rw [fill_result_array_eq env hobj results 0 _ (by simp)]
  simp

/-- A non-negative `jint` converts to the `size_t` of the same value. -/
theorem size_of_jint_eq (k : Int) (h0 : 0 ≤ k) (h : k < 2 ^ 31) : size_of_jint k = k.toNat := by
  unfold size_of_jint
  rw [Int.emod_eq_of_lt h0 (by omega)]

/-- C29: for `0 ≤ k` (a `jint`), when the JNI calls succeed and the wrapped search
succeeds with `r ≤ k` results from the core, `nativeSearchVectors` and
`nativeSearchHNSWIndex` return an array of exactly `k` elements: the core's `r`
results, then `k - r` elements built from value-initialised entries, each a
`SearchResult` with id 0 and distance 0, the same object a hit on id 0 at distance
0 gives. -/
theorem native_search_pads_with_zero_hits [Zero F] (env : JNIEnv) (vs : VectorStoreCore S F)
    (hnsw : HNSWIndexCore I F FS) (store : S) (index : I) (query : List F) (k : Int)
    (from_store from_index : List (QuiverDBSearchResult F))
    (hk0 : 0 ≤ k) (hk : k < 2 ^ 31)
    (hclass : env.find_class = true) (hmethod : env.get_method_id = true)
    (harray : ∀ n, env.new_object_array n = true) (hobj : ∀ i, env.new_object i = true)
    (hstore : vs.search store query k.toNat = .ok from_store)
    (hindex : hnsw.search index query k.toNat = .ok from_index)
    (hstore_k : from_store.length ≤ k.toNat) (hindex_k : from_index.length ≤ k.toNat) :
    (nativeSearchVectors env vs store (some query) k).value =
      some (from_store.map (fun r => some (java_hit r)) ++
        List.replicate (k.toNat - from_store.length)
          (some (java_hit (zero_entry : QuiverDBSearchResult F)))) ∧
    (from_store.map (fun r => some (java_hit r)) ++
      List.replicate (k.toNat - from_store.length)
        (some (java_hit (zero_entry : QuiverDBSearchResult F)))).length =
      k.toNat ∧
    (nativeSearchHNSWIndex env hnsw index (some query) k).value =
      some (from_index.map (fun r => some (java_hit r)) ++
        List.replicate (k.toNat - from_index.length)
          (some (java_hit (zero_entry : QuiverDBSearchResult F)))) ∧
    (from_index.map (fun r => some (java_hit r)) ++
      List.replicate (k.toNat - from_index.length)
        (some (java_hit (zero_entry : QuiverDBSearchResult F)))).length =
      k.toNat ∧
    java_hit (zero_entry : QuiverDBSearchResult F) = { id := 0, distance := 0 } := by
  have hsize := size_of_jint_eq k hk0 hk
  refine ⟨?_, ?_, ?_, ?_, by simp [java_hit, jlong_of_uint64, zero_entry]⟩
  · simp only [nativeSearchVectors, hsize, quiverdb_vector_store_search, List.length_replicate,
      Nat.lt_irrefl, if_false, hstore, ne_eq, not_true_eq_false]
    rw [search_writes_core_results _ _ (by simpa using hstore_k),
      createSearchResultArray_eq env hclass hmethod harray hobj]
    simp
  · simp only [List.length_append, List.length_map, List.length_replicate]
    omega
  · simp only [nativeSearchHNSWIndex, hsize, quiverdb_hnsw_index_search, List.length_replicate,
      Nat.lt_irrefl, if_false, hindex, ne_eq, not_true_eq_false]
    rw [search_writes_core_results _ _ (by simpa using hindex_k),
      createSearchResultArray_eq env hclass hmethod harray hobj]
    simp
  · simp only [List.length_append, List.length_map, List.length_replicate]
    omega

end JNITheorems

/-- Witness of C29: `k = 5` on three stored records, on the modelled store and the
modelled index. -/
theorem native_search_pads_with_zero_hits_witness :
    (0 : Int) ≤ 5 ∧ (5 : Int) < 2 ^ 31 ∧
    (specVectorStoreCore raise_std no_sqrt).search store_three [0, 0, 0, 0] 5 =
      .ok three_results ∧
    scenario_hnsw_core.search index_three [0, 0, 0, 0] 5 = .ok three_results ∧
    three_results.length ≤ 5 ∧
    (nativeSearchVectors healthy_env (specVectorStoreCore raise_std no_sqrt) store_three
      (some [0, 0, 0, 0]) 5).value =
      some [some { id := 1, distance := 0 }, some { id := 2, distance := 1 },
        some { id := 3, distance := 4 }, some { id := 0, distance := 0 },
        some { id := 0, distance := 0 }] ∧
    (nativeSearchHNSWIndex healthy_env scenario_hnsw_core index_three (some [0, 0, 0, 0])
      5).value =
      some [some { id := 1, distance := 0 }, some { id := 2, distance := 1 },
        some { id := 3, distance := 4 }, some { id := 0, distance := 0 },
        some { id := 0, distance := 0 }] := by
  have h := native_search_pads_with_zero_hits healthy_env
    (specVectorStoreCore raise_std no_sqrt) scenario_hnsw_core store_three index_three
    [0, 0, 0, 0] 5 three_results three_results (by decide) (by decide) rfl rfl (fun _ => rfl)
    (fun _ => rfl) scenario_store_search_five scenario_index_search_five (by decide)
    (by decide)
  exact ⟨by decide, by decide, scenario_store_search_five, scenario_index_search_five,
    by decide, h.1, h.2.2.1⟩

/-- C23 (defect of the code): `nativeAddVector`, `nativeAddToHNSWIndex`,
`nativeSetEfSearch` and `nativeSaveHNSWIndex` return `void` and raise no Java
exception, so the caller observes the same whatever the wrapped call returned.
On the modelled store that holds id 1, adding id 1 again (the wrapper returns
`QUIVERDB_ERROR`) and adding id 2 (`QUIVERDB_OK`) are observed alike, while the
sibling `nativeUpdateVector` returns `false` for a failure and `true` for a
success. -/
theorem native_void_failures_not_surfaced :
    (∀ (S F : Type) (core : VectorStoreCore S F) (handle : S) (id : Int)
      (vector : Option (List F)),
      (nativeAddVector core handle id vector).observed = ((), false)) ∧
    (∀ (I F FS : Type) (core : HNSWIndexCore I F FS) (handle : I) (id : Int)
      (vector : Option (List F)),
      (nativeAddToHNSWIndex core handle id vector).observed = ((), false)) ∧
    (∀ (I F FS : Type) (core : HNSWIndexCore I F FS) (handle : I) (ef : Int),
      (nativeSetEfSearch core handle ef).observed = ((), false)) ∧
    (∀ (I F FS : Type) (core : HNSWIndexCore I F FS) (handle : I) (filename : Option String)
      (fs : FS), (nativeSaveHNSWIndex core handle filename fs).observed = ((), false)) ∧
    (quiverdb_vector_store_add (specVectorStoreCore raise_std no_sqrt) store_with_id_1
      (uint64_of_jlong 1) [0, 0, 0, 0]).error = QUIVERDB_ERROR ∧
    (quiverdb_vector_store_add (specVectorStoreCore raise_std no_sqrt) store_with_id_1
      (uint64_of_jlong 2) [0, 0, 0, 0]).error = QUIVERDB_OK ∧
    (nativeAddVector (specVectorStoreCore raise_std no_sqrt) store_with_id_1 1
      (some [0, 0, 0, 0])).observed =
      (nativeAddVector (specVectorStoreCore raise_std no_sqrt) store_with_id_1 2
        (some [0, 0, 0, 0])).observed ∧
    (nativeUpdateVector (specVectorStoreCore raise_std no_sqrt) store_with_id_1 9999
      (some [0, 0, 0, 0])).observed = (false, false) ∧
    (nativeUpdateVector (specVectorStoreCore raise_std no_sqrt) store_with_id_1 1
      (some [0, 0, 0, 0])).observed = (true, false) := by
  refine ⟨?_, ?_, ?_, ?_, by decide, by decide, rfl, by decide, by decide⟩
  · intro S F core handle id vector
    cases vector with
    | none => rfl
    | some v => simp only [nativeAddVector, Native.observed]; split_ifs <;> rfl
  · intro I F FS core handle id vector
    cases vector with
    | none => rfl
    | some v => simp only [nativeAddToHNSWIndex, Native.observed]; split_ifs <;> rfl
  · intro I F FS core handle ef
    simp only [nativeSetEfSearch, Native.observed]; split_ifs <;> rfl
  · intro I F FS core handle filename fs
    cases filename with
    | none => rfl
    | some f => simp only [nativeSaveHNSWIndex, Native.observed]; split_ifs <;> rfl

/-- C30: `nativeHNSWIndexMetric` returns 0 (L2) for every handle; an index created
through `nativeCreateHNSWIndex` on the modelled core has the metric the selector
converts to (Cosine for 1, Dot for 2) and still reports 0. -/
theorem native_hnsw_metric_always_l2 :
    (∀ (I : Type) (handle : I), nativeHNSWIndexMetric handle = 0) ∧
    (∀ (raise : ErrorKind → Thrown) (ch : HNSWChoices ℚ) (sqrt : ℚ → ℚ)
      (dimension metric maxElements M efConstruction seed : Int),
      ∃ index : HNSWIndex ℚ,
        (nativeCreateHNSWIndex (specHNSWIndexCore raise ch sqrt) dimension metric maxElements M
          efConstruction seed).value = some index ∧
        index.graph.metric = convert_hnsw_metric metric ∧
        nativeHNSWIndexMetric index = 0) ∧
    convert_hnsw_metric 1 = HNSWDistanceMetric.COSINE ∧
    convert_hnsw_metric 2 = HNSWDistanceMetric.DOT := by
  refine ⟨fun _ _ => rfl, ?_, by decide, by decide⟩
  intro raise ch sqrt dimension metric maxElements M efConstruction seed
  exact ⟨_, rfl, rfl, rfl⟩

/-! ## The mapped store -/

section
variable {F : Type}

theorem MMapVectorStoreBuilder.add_all_ok (records : List (Nat × List F)) :
    ∀ b : MMapVectorStoreBuilder F,
      (∀ r ∈ records, r.2.length = b.dimension) →
      ((b.records ++ records).map Prod.fst).Nodup →
      b.add_all records = .ok { b with records := b.records ++ records } := by
  induction records with
  | nil => intro b _ _; simp [MMapVectorStoreBuilder.add_all]
  | cons r rest ih =>
    intro b hdim hids
    have hlen : r.2.length = b.dimension := hdim r (List.mem_cons_self _ _)
    have hnew : (b.records.any fun x => x.1 == r.1) = false := by
      rw [List.map_append, List.map_cons, List.nodup_append] at hids
      have hdisj := hids.2.2
      rw [Bool.eq_false_iff]
      intro hany
      rw [List.any_eq_true] at hany
      obtain ⟨x, hx, hxr⟩ := hany
      have hxr' : x.1 = r.1 := by simpa using hxr
      exact hdisj (List.mem_map_of_mem Prod.fst hx) (hxr' ▸ List.mem_cons_self _ _)
    have hadd : b.add r.1 r.2 = .ok { b with records := b.records ++ [(r.1, r.2)] } := by
      simp [MMapVectorStoreBuilder.add, hlen, hnew]
    rw [MMapVectorStoreBuilder.add_all, hadd]
    have hrest := ih { b with records := b.records ++ [(r.1, r.2)] }
      (fun x hx => hdim x (List.mem_cons_of_mem _ hx))
      (by simpa [List.append_assoc] using hids)
    simp only [List.append_assoc, List.singleton_append] at hrest
    exact hrest

theorem binary_search_finds (records : List (Nat × List F)) (id : Nat) (v : List F)
    (hsorted : records.Pairwise fun a b => a.1 < b.1) :
    ∀ (n lo hi j : Nat), hi - lo = n → lo ≤ j → j < hi → hi ≤ records.length →
      records[j]? = some (id, v) → binary_search records id lo hi = some v := by
  intro n
  induction n using Nat.strong_induction_on with
  | _ n ih =>
    intro lo hi j hn hlo hhi hlen hj
    have hlt : lo < hi := by omega
    have hmid : (lo + hi) / 2 < records.length := by omega
    have hjlen : j < records.length := by omega
    have hjv : records[j] = (id, v) := by
      rw [List.getElem?_eq_getElem hjlen] at hj
      exact Option.some.inj hj
    have hrel := List.pairwise_iff_getElem.mp hsorted
    rw [binary_search, if_pos hlt, List.getElem?_eq_getElem hmid]
    simp only
    by_cases heq : (records[(lo + hi) / 2]).1 = id
    · rw [if_pos heq]
      have hmj : (lo + hi) / 2 = j := by
        rcases Nat.lt_trichotomy ((lo + hi) / 2) j with h | h | h
        · have := hrel _ _ hmid hjlen h
          rw [hjv] at this
          omega
        · exact h
        · have := hrel _ _ hjlen hmid h
          rw [hjv] at this
          omega
      simp only [hmj, hjv]
    · rw [if_neg heq]
      by_cases hless : (records[(lo + hi) / 2]).1 < id
      · rw [if_pos hless]
        have hmj : (lo + hi) / 2 < j := by
          by_contra hcon
          rcases Nat.lt_or_ge j ((lo + hi) / 2) with h | h
          · have := hrel _ _ hjlen hmid h
            rw [hjv] at this
            simp only at this
            omega
          · have hjm : j = (lo + hi) / 2 := by omega
            subst hjm
            rw [hjv] at heq
            exact heq rfl
        exact ih (hi - ((lo + hi) / 2 + 1)) (by omega) _ _ j rfl (by omega) hhi hlen hj
      · rw [if_neg hless]
        have hmj : j < (lo + hi) / 2 := by
          by_contra hcon
          rcases Nat.lt_or_ge ((lo + hi) / 2) j with h | h
          · have := hrel _ _ hmid hjlen h
            rw [hjv] at this
            simp only at this
            omega
          · have hjm : j = (lo + hi) / 2 := by omega
            subst hjm
            rw [hjv] at heq
            exact heq rfl
        exact ih ((lo + hi) / 2 - lo) (by omega) _ _ j rfl hlo hmj (by omega) hj

theorem id_sorted_strict (records : List (Nat × List F))
    (hids : (records.map Prod.fst).Nodup) :
    (records.insertionSort id_le).Pairwise fun a b => a.1 < b.1 := by
  haveI : IsTotal (Nat × List F) id_le := ⟨fun a b => Nat.le_total a.1 b.1⟩
  haveI : IsTrans (Nat × List F) id_le := ⟨fun _ _ _ hab hbc => Nat.le_trans hab hbc⟩
  have hsorted : (records.insertionSort id_le).Pairwise id_le :=
    List.sorted_insertionSort id_le records
  have hperm := List.perm_insertionSort id_le records
  have hnodup : ((records.insertionSort id_le).map Prod.fst).Nodup :=
    (List.Perm.nodup_iff (hperm.map Prod.fst)).mpr hids
  have hne : (records.insertionSort id_le).Pairwise fun a b => a.1 ≠ b.1 := by
    unfold List.Nodup at hnodup
    rw [List.pairwise_map] at hnodup
    exact hnodup
  exact (hsorted.and hne).imp fun h => Nat.lt_of_le_of_ne h.1 h.2

theorem mmap_get_of_saved (b : MMapVectorStoreBuilder F)
    (hids : (b.records.map Prod.fst).Nodup) (r : Nat × List F) (hr : r ∈ b.records) :
    MMapVectorStore.get { file := b.image } r.1 = some r.2 := by
  have hperm := List.perm_insertionSort id_le b.records
  have hmem : r ∈ b.records.insertionSort id_le := hperm.mem_iff.mpr hr
  obtain ⟨j, hj, hjr⟩ := List.getElem_of_mem hmem
  have hlen : (b.records.insertionSort id_le).length = b.records.length := hperm.length_eq
  unfold MMapVectorStore.get
  refine binary_search_finds _ r.1 r.2 (id_sorted_strict b.records hids) _ 0 _ j rfl
    (Nat.zero_le _) ?_ ?_ ?_
  · show j < b.records.length
    omega
  · show b.records.length ≤ (b.records.insertionSort id_le).length
    omega
  · show (b.records.insertionSort id_le)[j]? = some (r.1, r.2)
    rw [List.getElem?_eq_getElem hj, hjr]

end

/-- C22: for every list of records with distinct ids and vectors of length `d`,
a Builder of dimension `d` accepts them all, and after `save` to a writable path
a Store opened from that path reports the number of records as its size, `d` as
its dimension, and `get` returns the original vector for every added id. -/
theorem mmap_round_trip {F : Type} (d : Nat) (metric : DistanceMetric)
    (records : List (Nat × List F)) (path : String) (fs : MMapFileSystem F)
    (hids : (records.map Prod.fst).Nodup)
    (hdim : ∀ r ∈ records, r.2.length = d)
    (hw : fs.writable path = true) :
    ∃ b fs1 st,
      (MMapVectorStoreBuilder.create d metric).add_all records = .ok b ∧
      b.size = records.length ∧
      b.save path fs = .ok fs1 ∧
      MMapVectorStore.open path fs1 = .ok st ∧
      st.size = records.length ∧
      st.dimension = d ∧
      ∀ r ∈ records, st.get r.1 = some r.2 := by
  have hadd := MMapVectorStoreBuilder.add_all_ok records
    (MMapVectorStoreBuilder.create d metric) hdim (by simpa [MMapVectorStoreBuilder.create] using hids)
  simp only [MMapVectorStoreBuilder.create, List.nil_append] at hadd
  have hlen : (records.insertionSort id_le).length = records.length :=
    (List.perm_insertionSort id_le records).length_eq
  refine ⟨{ dimension := d, metric := metric, records := records },
    { fs with files := fun p =>
        if p = path then
          some (MMapContent.store_file
            (MMapVectorStoreBuilder.image { dimension := d, metric := metric, records := records }))
        else fs.files p },
    { file := MMapVectorStoreBuilder.image { dimension := d, metric := metric, records := records } },
    hadd, rfl, ?_, ?_, rfl, rfl, ?_⟩
  · simp [MMapVectorStoreBuilder.save, hw]
  · simp [MMapVectorStore.open, MMapVectorStoreBuilder.image, hlen]
  · intro r hr
    exact mmap_get_of_saved { dimension := d, metric := metric, records := records } hids r hr

theorem mmap_round_trip_witness :
    records_1000.length = 1000 ∧
    (records_1000.map Prod.fst).Nodup ∧
    (∀ r ∈ records_1000, r.2.length = 4) ∧
    ∃ b fs1 st,
      (MMapVectorStoreBuilder.create 4 DistanceMetric.L2).add_all records_1000 = .ok b ∧
      b.size = records_1000.length ∧
      b.save "store.bin" empty_disk = .ok fs1 ∧
      MMapVectorStore.open "store.bin" fs1 = .ok st ∧
      st.size = records_1000.length ∧
      st.dimension = 4 ∧
      ∀ r ∈ records_1000, st.get r.1 = some r.2 := by
  have hids : (records_1000.map Prod.fst).Nodup := by
    have : records_1000.map Prod.fst = List.range 1000 := by
      unfold records_1000
      rw [List.map_map]
      exact List.map_id _
    rw [this]
    exact List.nodup_range 1000
  have hdim : ∀ r ∈ records_1000, r.2.length = 4 := by
    intro r hr
    unfold records_1000 at hr
    rw [List.mem_map] at hr
    obtain ⟨i, _, rfl⟩ := hr
    exact List.length_replicate _ _
  exact ⟨by unfold records_1000; rw [List.length_map, List.length_range], hids, hdim,
    mmap_round_trip 4 DistanceMetric.L2 records_1000 "store.bin" empty_disk hids hdim rfl⟩

/-! ## Vectors of the wrong length -/

section
variable {F : Type} [LinearOrderedField F]

end

end QuiverDB
